import Mathlib

set_option maxRecDepth 100000

/-!
Verification development for the university finance-administration backend
(dues ledger, bank reconciliation and reporting).  The Python source
(routes/students.py, routes/finance.py, models.py) is shallowly embedded:
database rows become records, each HTTP handler becomes a function from a
database state to either an error or an updated state plus its output.
Monetary amounts and timestamps (Python floats and datetimes) are modeled as
rationals; timestamps are counted in days, so a timedelta of seven days is
the rational 7.
-/

namespace FASE

/-- Error taxonomy of the handlers: 404 becomes notFound, the duplicate /
business-rule 400s become conflict, the validation 400s become
invalidArgument, 410 becomes expired, and a Python ZeroDivisionError
escaping a handler becomes zeroDiv. -/
inductive Err where
  | notFound
  | conflict
  | invalidArgument
  | expired
  | zeroDiv
deriving DecidableEq, Repr

/-- Row of the users table (models.py User); only the columns the claims
touch are kept. -/
structure UserR where
  id : Nat
  username : String
  is_admin : Bool
  dues_balance : Rat
deriving DecidableEq, Repr

/-- Row of the courses table (models.py Course). -/
structure CourseR where
  id : Nat
  name : String
  total_fee : Rat
deriving DecidableEq, Repr

/-- Row of the enrollments table (models.py Enrollment); course_fee is the
fee snapshot taken at enrollment time. -/
structure EnrollmentR where
  student_id : Nat
  course_id : Nat
  course_fee : Rat
  status : String
deriving DecidableEq, Repr

/-- Row of the payments table (models.py Payment). -/
structure PaymentR where
  id : Nat
  student_id : Nat
  amount : Rat
  payment_date : Rat
  payment_method : String
  status : String
  recorded_by : Option Nat
deriving DecidableEq, Repr

/-- Row of the penalties table (models.py Penalty). -/
structure PenaltyR where
  student_id : Nat
  amount : Rat
  penalty_type : String
  applied_by : Nat
deriving DecidableEq, Repr

/-- Row of the bank_transactions table (models.py BankTransaction). -/
structure BankTxnR where
  id : Nat
  bank_ref : String
  amount : Rat
  transaction_date : Rat
  status : String
  matched_payment_id : Option Nat
  matched_student_id : Option Nat
  matched_by : Option Nat
  matched_at : Option Rat
deriving DecidableEq, Repr

/-- Row of the generated_reports table (models.py GeneratedReport); the
primary key is the human-readable id string, modeled as a list of
characters. -/
structure ReportR where
  id : List Char
  generated_at : Rat
  expires_at : Rat
deriving DecidableEq, Repr

/-- The persisted entity store: one list per table, plus the next payment
primary key the database would hand out. -/
structure DbState where
  users : List UserR
  courses : List CourseR
  enrollments : List EnrollmentR
  payments : List PaymentR
  penalties : List PenaltyR
  bank_txns : List BankTxnR
  reports : List ReportR
  next_payment_id : Nat
deriving DecidableEq, Repr

/-- User.query.get. -/
def findUser (st : DbState) (sid : Nat) : Option UserR :=
  st.users.find? (fun u => u.id == sid)

/-- Course.query.get. -/
def findCourse (st : DbState) (cid : Nat) : Option CourseR :=
  st.courses.find? (fun c => c.id == cid)

/-- Enrollment.query.filter_by(student_id, course_id).first(). -/
def findEnrollment (st : DbState) (sid cid : Nat) : Option EnrollmentR :=
  st.enrollments.find? (fun e => e.student_id == sid && e.course_id == cid)

/-- Overwrite the dues_balance of the user row with the given id. -/
def setDues (users : List UserR) (sid : Nat) (b : Rat) : List UserR :=
  users.map (fun u => if u.id == sid then { u with dues_balance := b } else u)

/-- POST /api/students/enroll (students.py enroll_course): verifies student
and course, rejects an existing (student, course) enrollment, then creates
the enrollment with the fee snapshot and increments dues_balance.  Returns
the new balance. -/
def enroll_course (st : DbState) (student_id course_id : Nat) :
    Except Err (DbState × Rat) :=
  match findUser st student_id with
  | none => .error .notFound
  | some student =>
    match findCourse st course_id with
    | none => .error .notFound
    | some course =>
      match findEnrollment st student_id course_id with
      | some _ => .error .conflict
      | none =>
        let enr : EnrollmentR :=
          { student_id := student_id, course_id := course_id,
            course_fee := course.total_fee, status := "ACTIVE" }
        let newBal := student.dues_balance + course.total_fee
        .ok ({ st with users := setDues st.users student_id newBal,
                       enrollments := st.enrollments ++ [enr] }, newBal)

/-- DELETE /api/students/enroll (students.py drop_course): verifies the
student and the enrollment, rejects the drop when the student has any
payment row, otherwise deletes the enrollment and decrements dues_balance
by the fee snapshot, floored at zero.  Returns the new balance. -/
def drop_course (st : DbState) (student_id course_id : Nat) :
    Except Err (DbState × Rat) :=
  match findUser st student_id with
  | none => .error .notFound
  | some student =>
    match findEnrollment st student_id course_id with
    | none => .error .notFound
    | some enr =>
      if 0 < (st.payments.filter (fun p => p.student_id == student_id)).length then
        .error .conflict
      else
        let bal := student.dues_balance - enr.course_fee
        let newBal := if bal < 0 then 0 else bal
        .ok ({ st with
                users := setDues st.users student_id newBal,
                enrollments :=
                  st.enrollments.eraseP
                    (fun e => e.student_id == student_id && e.course_id == course_id) },
             newBal)

/-- POST /api/students/pay (students.py make_payment): rejects non-positive
amounts, rejects overpayment for every method except BANK_TRANSFER, records
the payment with status PENDING for BANK_TRANSFER (leaving the balance
untouched) and with status RECEIVED otherwise (decrementing the balance
immediately).  Returns the created payment row. -/
def make_payment (st : DbState) (student_id : Nat) (amount : Rat)
    (payment_method : String) (payment_date : Rat) :
    Except Err (DbState × PaymentR) :=
  if amount ≤ 0 then .error .invalidArgument
  else
    match findUser st student_id with
    | none => .error .notFound
    | some student =>
      if payment_method ≠ "BANK_TRANSFER" ∧ student.dues_balance < amount then
        .error .invalidArgument
      else
        let status := if payment_method = "BANK_TRANSFER" then "PENDING" else "RECEIVED"
        let pay : PaymentR :=
          { id := st.next_payment_id, student_id := student_id, amount := amount,
            payment_date := payment_date, payment_method := payment_method,
            status := status, recorded_by := none }
        let users :=
          if status = "RECEIVED" then
            setDues st.users student_id (student.dues_balance - amount)
          else st.users
        .ok ({ st with users := users, payments := st.payments ++ [pay],
                       next_payment_id := st.next_payment_id + 1 }, pay)

/-- POST /api/finance/record-payment (finance.py record_external_payment):
admin records an already-settled payment; always status RECEIVED, balance
becomes max 0 (balance - amount).  There is no overpayment check. -/
def record_external_payment (st : DbState) (admin_id student_id : Nat)
    (amount : Rat) (payment_method : String) (now : Rat) :
    Except Err (DbState × Rat) :=
  if amount ≤ 0 then .error .invalidArgument
  else
    match findUser st student_id with
    | none => .error .notFound
    | some student =>
      if student.is_admin then .error .notFound
      else
        let pay : PaymentR :=
          { id := st.next_payment_id, student_id := student_id, amount := amount,
            payment_date := now, payment_method := payment_method,
            status := "RECEIVED", recorded_by := some admin_id }
        let newBal := max 0 (student.dues_balance - amount)
        .ok ({ st with users := setDues st.users student_id newBal,
                       payments := st.payments ++ [pay],
                       next_payment_id := st.next_payment_id + 1 }, newBal)

/-- PUT /api/finance/action/penalty (finance.py apply_penalty): rejects a
non-positive amount, verifies the target is an existing non-admin user,
records the Penalty row and increments dues_balance unconditionally. -/
def apply_penalty (st : DbState) (admin_id student_id : Nat) (amount : Rat)
    (penalty_type : String) : Except Err (DbState × Rat) :=
  if amount ≤ 0 then .error .invalidArgument
  else
    match findUser st student_id with
    | none => .error .notFound
    | some student =>
      if student.is_admin then .error .notFound
      else
        let pen : PenaltyR :=
          { student_id := student_id, amount := amount,
            penalty_type := penalty_type, applied_by := admin_id }
        let newBal := student.dues_balance + amount
        .ok ({ st with users := setDues st.users student_id newBal,
                       penalties := st.penalties ++ [pen] }, newBal)

/-- PUT /api/finance/bank-reconciliation/match, option 2 (finance.py
match_bank_transaction with create_payment): synthesizes a RECEIVED payment
from the transaction amount, sets the balance to max 0 (balance - amount)
and stamps the transaction Matched. -/
def match_bank_create (st : DbState) (admin_id txn_id student_id : Nat)
    (now : Rat) : Except Err (DbState × Rat) :=
  match st.bank_txns.find? (fun t => t.id == txn_id) with
  | none => .error .notFound
  | some txn =>
    match findUser st student_id with
    | none => .error .notFound
    | some student =>
      let pay : PaymentR :=
        { id := st.next_payment_id, student_id := student_id, amount := txn.amount,
          payment_date := txn.transaction_date, payment_method := "BANK_TRANSFER",
          status := "RECEIVED", recorded_by := some admin_id }
      let newBal := max 0 (student.dues_balance - txn.amount)
      let txns := st.bank_txns.map (fun t =>
        if t.id == txn_id then
          { t with matched_payment_id := some pay.id,
                   matched_student_id := some student_id,
                   status := "Matched", matched_at := some now,
                   matched_by := some admin_id }
        else t)
      .ok ({ st with users := setDues st.users student_id newBal,
                     payments := st.payments ++ [pay],
                     bank_txns := txns,
                     next_payment_id := st.next_payment_id + 1 }, newBal)

/-- Sum of the fee snapshots of the ACTIVE enrollments of one student, at
the level of the enrollment table. -/
def feeSumL (es : List EnrollmentR) (sid : Nat) : Rat :=
  ((es.filter (fun e => e.student_id == sid && e.status == "ACTIVE")).map
    (fun e => e.course_fee)).sum

/-- Sum of the penalty amounts of one student, at the level of the penalty
table. -/
def penSumL (ps : List PenaltyR) (sid : Nat) : Rat :=
  ((ps.filter (fun p => p.student_id == sid)).map (fun p => p.amount)).sum

/-- Sum of the RECEIVED payment amounts of one student, at the level of the
payment table. -/
def recvSumL (ps : List PaymentR) (sid : Nat) : Rat :=
  ((ps.filter (fun p => p.student_id == sid && p.status == "RECEIVED")).map
    (fun p => p.amount)).sum

/-- Sum of the fee snapshots of the student's ACTIVE enrollments. -/
def active_fee_sum (st : DbState) (sid : Nat) : Rat :=
  feeSumL st.enrollments sid

/-- Sum of the student's penalty amounts. -/
def penalty_sum (st : DbState) (sid : Nat) : Rat :=
  penSumL st.penalties sid

/-- Sum of the student's RECEIVED payment amounts. -/
def received_sum (st : DbState) (sid : Nat) : Rat :=
  recvSumL st.payments sid

/-- The balance recomputed from the persisted records, as the invariant of
the specification states it: max 0 (active fee snapshots + penalties -
RECEIVED payments). -/
def recomputed_balance (st : DbState) (sid : Nat) : Rat :=
  max 0 (active_fee_sum st sid + penalty_sum st sid - received_sum st sid)

/-- Insertion of an element into a list sorted by the boolean relation. -/
def insertSorted (le : α → α → Bool) (x : α) : List α → List α
  | [] => [x]
  | y :: ys => if le x y then x :: y :: ys else y :: insertSorted le x ys

/-- Sorting by a boolean relation (models the SQL ORDER BY and Python
list.sort used by the handlers). -/
def sortWith (le : α → α → Bool) (l : List α) : List α :=
  l.foldr (insertSorted le) []

/-- The SQLAlchemy criterion written as User.is_admin is False in the
source.  In Python this is an identity test between the column object
User.is_admin and the constant False, which evaluates to the boolean
constant False; SQLAlchemy then coerces the bare False passed to filter
into the SQL constant false, so the criterion holds of no row. -/
def is_admin_is_False_criterion (_u : UserR) : Bool := false

/-- Output shape of GET /api/finance/dues. -/
structure DuesReportOut where
  total_students_with_dues : Nat
  total_outstanding_amount : Rat
  students : List UserR
deriving DecidableEq, Repr

/-- GET /api/finance/dues (finance.py get_outstanding_dues): queries users
with dues_balance > 0 conjoined with the constant-false criterion above,
applies the optional min and max amount filters, sorts by username
ascending when sort_by is username and by dues_balance descending
otherwise, and totals the balances. -/
def get_outstanding_dues (st : DbState) (min_amount max_amount : Option Rat)
    (sort_by : String) : DuesReportOut :=
  let q0 := st.users.filter
    (fun u => decide (0 < u.dues_balance) && is_admin_is_False_criterion u)
  let q1 := match min_amount with
    | some m => q0.filter (fun u => decide (m ≤ u.dues_balance))
    | none => q0
  let q2 := match max_amount with
    | some m => q1.filter (fun u => decide (u.dues_balance ≤ m))
    | none => q1
  let students :=
    if sort_by = "username" then
      sortWith (fun a b => a.username ≤ b.username) q2
    else
      sortWith (fun a b => b.dues_balance ≤ a.dues_balance) q2
  { total_students_with_dues := students.length,
    total_outstanding_amount := (students.map (fun u => u.dues_balance)).sum,
    students := students }

/-- One entry of a manual bank sync batch.  The source reads the fields
from the request JSON; date_present records whether a date string was sent
at all (an absent or empty one fails the required-field check), and date is
the parsed date, none when the string does not parse (the source then falls
back to the current time). -/
structure SyncEntry where
  bank_ref : String
  amount : Rat
  date_present : Bool
  date : Option Rat
deriving DecidableEq, Repr

/-- Accumulator of the sync loop: the bank-transaction table as the session
sees it (SQLAlchemy autoflush makes rows added earlier in the batch visible
to the duplicate check) plus the four counters the endpoint returns. -/
structure SyncSt where
  txns : List BankTxnR
  next_txn_id : Nat
  imported_count : Nat
  auto_matched : Nat
  unmatched : Nat
  duplicates_skipped : Nat
deriving DecidableEq, Repr

/-- Body of the sync loop in finance.py sync_bank_data, for one entry:
skip silently when a required field is missing (Python truthiness, so a
zero amount also fails), count a duplicate when the bank_ref already
exists, otherwise create the transaction Unmatched and auto-match it
against the first payment of identical amount dated within seven days
either way of the transaction date. -/
def sync_entry_step (payments : List PaymentR) (admin_id : Nat) (now : Rat)
    (s : SyncSt) (e : SyncEntry) : SyncSt :=
  if e.bank_ref = "" ∨ e.amount = 0 ∨ e.date_present = false then s
  else if (s.txns.find? (fun t => t.bank_ref == e.bank_ref)).isSome then
    { s with duplicates_skipped := s.duplicates_skipped + 1 }
  else
    let txn_date := e.date.getD now
    let base : BankTxnR :=
      { id := s.next_txn_id, bank_ref := e.bank_ref, amount := e.amount,
        transaction_date := txn_date, status := "Unmatched",
        matched_payment_id := none, matched_student_id := none,
        matched_by := none, matched_at := none }
    match payments.find? (fun p =>
        decide (p.amount = e.amount) && decide (txn_date - 7 ≤ p.payment_date)
          && decide (p.payment_date ≤ txn_date + 7)) with
    | some p =>
      { s with txns := s.txns ++ [{ base with
                  matched_payment_id := some p.id,
                  matched_student_id := some p.student_id,
                  status := "Matched", matched_at := some now,
                  matched_by := some admin_id }],
               next_txn_id := s.next_txn_id + 1,
               auto_matched := s.auto_matched + 1,
               imported_count := s.imported_count + 1 }
    | none =>
      { s with txns := s.txns ++ [base],
               next_txn_id := s.next_txn_id + 1,
               unmatched := s.unmatched + 1,
               imported_count := s.imported_count + 1 }

/-- POST /api/finance/bank-reconciliation/sync with source manual
(finance.py sync_bank_data): folds the loop body over the batch. -/
def sync_bank_data (st : DbState) (admin_id : Nat) (now : Rat)
    (entries : List SyncEntry) : DbState × SyncSt :=
  let s0 : SyncSt :=
    { txns := st.bank_txns, next_txn_id := st.bank_txns.length + 1,
      imported_count := 0, auto_matched := 0, unmatched := 0,
      duplicates_skipped := 0 }
  let r := entries.foldl (sync_entry_step st.payments admin_id now) s0
  ({ st with bank_txns := r.txns }, r)

/-- A row of the suggestion list built by get_matching_suggestions. -/
structure SuggestionR where
  kind : String
  student_id : Option Nat
  payment_id : Option Nat
  match_confidence : String
deriving DecidableEq, Repr

/-- Per-student step of the suggestion loop in finance.py
get_matching_suggestions: an exact balance match (within 0.01) is a HIGH
suggestion; otherwise the source divides the balance difference by the
transaction amount, which in Python raises ZeroDivisionError when the
amount is zero; within ten percent is a MEDIUM suggestion. -/
def suggestion_step (amt : Rat) (u : UserR) : Except Err (Option SuggestionR) :=
  if |u.dues_balance - amt| < 1/100 then
    .ok (some { kind := "student", student_id := some u.id,
                payment_id := none, match_confidence := "HIGH" })
  else if amt = 0 then .error .zeroDiv
  else if |u.dues_balance - amt| / amt ≤ 1/10 then
    .ok (some { kind := "student", student_id := some u.id,
                payment_id := none, match_confidence := "MEDIUM" })
  else .ok none

/-- Numeric rank of a confidence tag, as the source's confidence_order
dict with default 3. -/
def confidence_rank (c : String) : Nat :=
  if c = "HIGH" then 1 else if c = "MEDIUM" then 2 else 3

/-- GET /api/finance/bank-reconciliation/suggestions (finance.py
get_matching_suggestions): looks the transaction up, scans the students
returned by the dues_balance > 0 plus constant-false-criterion query,
adds HIGH payment suggestions of identical amount within the seven-day
window, sorts by confidence and keeps the first ten. -/
def get_matching_suggestions (st : DbState) (txn_id : Nat) :
    Except Err (List SuggestionR) :=
  match st.bank_txns.find? (fun t => t.id == txn_id) with
  | none => .error .notFound
  | some txn => do
    let students_with_dues := st.users.filter
      (fun u => decide (0 < u.dues_balance) && is_admin_is_False_criterion u)
    let studentSuggs ← students_with_dues.foldlM
      (fun acc u => do
        let o ← suggestion_step txn.amount u
        pure (acc ++ o.toList))
      ([] : List SuggestionR)
    let similar := st.payments.filter (fun p =>
      decide (p.amount = txn.amount)
        && decide (txn.transaction_date - 7 ≤ p.payment_date)
        && decide (p.payment_date ≤ txn.transaction_date + 7)
        && p.status == "RECEIVED")
    let paySuggs := similar.filterMap (fun p =>
      if (findUser st p.student_id).isSome then
        some { kind := "payment", student_id := none,
               payment_id := some p.id, match_confidence := "HIGH" }
      else none)
    let sorted := sortWith
      (fun a b => confidence_rank a.match_confidence < confidence_rank b.match_confidence)
      (studentSuggs ++ paySuggs)
    pure (sorted.take 10)

/-- Per-student outcome slot of a bulk call. -/
inductive BulkDetail where
  | applied (student_id : Nat) (penalty_amount new_dues : Rat)
  | failed (student_id : Nat) (reason : String)
  | skipped (student_id : Nat) (reason : String)
deriving DecidableEq, Repr

/-- Accumulator of the bulk-penalty loop. -/
structure BulkSt where
  db : DbState
  details : List BulkDetail
  applied_count : Nat
  total_penalties : Rat
deriving DecidableEq, Repr

/-- Body of the loop in finance.py bulk_penalty, for one student id: a
missing or admin user is recorded failed, a student without outstanding
dues is recorded skipped, otherwise the penalty row is created and the
balance incremented. -/
def bulk_penalty_step (admin_id : Nat) (amount : Rat) (ptype : String)
    (s : BulkSt) (sid : Nat) : BulkSt :=
  match findUser s.db sid with
  | none => { s with details := s.details ++ [.failed sid "Student not found"] }
  | some student =>
    if student.is_admin then
      { s with details := s.details ++ [.failed sid "Student not found"] }
    else if student.dues_balance ≤ 0 then
      { s with details := s.details ++ [.skipped sid "No outstanding dues"] }
    else
      let pen : PenaltyR :=
        { student_id := sid, amount := amount, penalty_type := ptype,
          applied_by := admin_id }
      let newBal := student.dues_balance + amount
      { db := { s.db with users := setDues s.db.users sid newBal,
                          penalties := s.db.penalties ++ [pen] },
        details := s.details ++ [.applied sid amount newBal],
        applied_count := s.applied_count + 1,
        total_penalties := s.total_penalties + amount }

/-- POST /api/finance/action/bulk-penalty (finance.py bulk_penalty):
validates the id list and the amount, then folds the loop body over the
ids; individual failures land in the details list and never abort the
batch, which reports overall success. -/
def bulk_penalty (st : DbState) (admin_id : Nat) (student_ids : List Nat)
    (amount : Rat) (ptype : String) : Except Err BulkSt :=
  if student_ids = [] then .error .invalidArgument
  else if amount ≤ 0 then .error .invalidArgument
  else .ok (student_ids.foldl (bulk_penalty_step admin_id amount ptype)
    { db := st, details := [], applied_count := 0, total_penalties := 0 })

/-- Fuel-driven digit extraction; the fuel only bounds the recursion and
any fuel above the number itself gives the digits. -/
def natDigitsGo : Nat → Nat → List Char
  | _, 0 => []
  | n, fuel + 1 =>
    if n < 10 then [Char.ofNat (48 + n)]
    else natDigitsGo (n / 10) fuel ++ [Char.ofNat (48 + n % 10)]

/-- Decimal digit characters of a natural number, most significant first
(the digits of the Python str and f-string rendering of an int). -/
def natDigits (n : Nat) : List Char :=
  natDigitsGo n (n + 1)

/-- Zero-padded three-digit rendering, the Python format spec 03d. -/
def pad3 (n : Nat) : List Char :=
  if n < 10 then '0' :: '0' :: natDigits n
  else if n < 100 then '0' :: natDigits n
  else natDigits n

/-- Decimal digit test on a character. -/
def isDigitChar (c : Char) : Bool :=
  decide (48 ≤ c.toNat) && decide (c.toNat ≤ 57)

/-- Python int() on a string of characters: defined exactly on nonempty
all-digit strings, where it folds the digits; anything else raises, which
the source catches and skips. -/
def parseNatChars (s : List Char) : Option Nat :=
  if s ≠ [] ∧ s.all isDigitChar then
    some (s.foldl (fun a c => a * 10 + (c.toNat - 48)) 0)
  else none

/-- The suffix after the last dash, the Python idiom split of a string on
the dash character taking the last component. -/
def afterLastDash (s : List Char) : List Char :=
  s.foldl (fun acc c => if c = '-' then [] else acc ++ [c]) []

/-- The report id string RPT-(year)-(seq padded to three digits). -/
def mkReportId (year seqn : Nat) : List Char :=
  ['R', 'P', 'T', '-'] ++ natDigits year ++ ['-'] ++ pad3 seqn

/-- The LIKE pattern prefix RPT-(year)- used to scope stored ids by year. -/
def reportIdStem (year : Nat) : List Char :=
  ['R', 'P', 'T', '-'] ++ natDigits year ++ ['-']

/-- The sequence numbers the source extracts: ids matching the year's LIKE
prefix, parsed by splitting on dashes and taking the last component as an
int, unparsable ones skipped. -/
def existing_seq_numbers (st : DbState) (year : Nat) : List Nat :=
  (st.reports.filter (fun r => (reportIdStem year).isPrefixOf r.id)).filterMap
    (fun r => parseNatChars (afterLastDash r.id))

/-- The sequence chosen in finance.py generate_report: max of the existing
numbers plus one, and one when none exist. -/
def report_count (st : DbState) (year : Nat) : Nat :=
  match existing_seq_numbers st year with
  | [] => 1
  | n :: ns => ns.foldl max n + 1

/-- POST /api/finance/reports/generate, the id assignment and persistence
of finance.py generate_report: stores the report under the fresh id with
expiry thirty days after generation, and returns the id. -/
def generate_report (st : DbState) (year : Nat) (now : Rat) :
    DbState × List Char :=
  let rid := mkReportId year (report_count st year)
  ({ st with reports := st.reports ++
      [{ id := rid, generated_at := now, expires_at := now + 30 }] }, rid)

/-- GET /api/finance/reports/download (finance.py download_report): unknown
id fails notFound, an expiry strictly in the past fails expired, otherwise
the stored report is returned. -/
def download_report (st : DbState) (rid : List Char) (now : Rat) :
    Except Err ReportR :=
  match st.reports.find? (fun r => r.id == rid) with
  | none => .error .notFound
  | some r => if r.expires_at < now then .error .expired else .ok r

/-- A ledger operation, as the claims enumerate them: enroll, drop course,
student payment, admin-recorded external payment, penalty, and manual
bank-match with payment creation. -/
inductive Op where
  | enroll (student_id course_id : Nat)
  | drop (student_id course_id : Nat)
  | pay (student_id : Nat) (amount : Rat) (method : String) (date : Rat)
  | payExternal (admin_id student_id : Nat) (amount : Rat) (method : String) (now : Rat)
  | penalize (admin_id student_id : Nat) (amount : Rat) (ptype : String)
  | matchCreate (admin_id txn_id student_id : Nat) (now : Rat)
deriving DecidableEq, Repr

/-- Running one operation against the store; a handler error rolls the
request back, leaving the store unchanged. -/
def applyOp (st : DbState) : Op → DbState
  | .enroll sid cid =>
    match enroll_course st sid cid with
    | .ok (st', _) => st'
    | .error _ => st
  | .drop sid cid =>
    match drop_course st sid cid with
    | .ok (st', _) => st'
    | .error _ => st
  | .pay sid amount method date =>
    match make_payment st sid amount method date with
    | .ok (st', _) => st'
    | .error _ => st
  | .payExternal aid sid amount method now =>
    match record_external_payment st aid sid amount method now with
    | .ok (st', _) => st'
    | .error _ => st
  | .penalize aid sid amount ptype =>
    match apply_penalty st aid sid amount ptype with
    | .ok (st', _) => st'
    | .error _ => st
  | .matchCreate aid tid sid now =>
    match match_bank_create st aid tid sid now with
    | .ok (st', _) => st'
    | .error _ => st

/-- Running a sequence of operations. -/
def applyOps (st : DbState) (ops : List Op) : DbState :=
  ops.foldl applyOp st

/-- An operation is over-credit-free in a state when, in case it is an
admin-recorded RECEIVED payment (external payment or bank-match payment
creation), its amount does not exceed the target student's current
balance, so the max-with-zero floor of those two handlers never actually
clamps. -/
def opOverCreditFree (st : DbState) : Op → Bool
  | .payExternal _ sid amount _ _ =>
    match findUser st sid with
    | some u => decide (amount ≤ u.dues_balance)
    | none => true
  | .matchCreate _ tid sid _ =>
    match st.bank_txns.find? (fun t => t.id == tid), findUser st sid with
    | some t, some u => decide (t.amount ≤ u.dues_balance)
    | _, _ => true
  | _ => true

/-- A run is good when every step is over-credit-free in the state it
executes in. -/
def goodRun (st : DbState) : List Op → Bool
  | [] => true
  | op :: ops => opOverCreditFree st op && goodRun (applyOp st op) ops

/-- The signed recomputation of a balance from the persisted records,
before the floor at zero. -/
def rawBalance (st : DbState) (sid : Nat) : Rat :=
  active_fee_sum st sid + penalty_sum st sid - received_sum st sid

/-- The ledger invariant: every user's stored balance equals the signed
recomputation from the persisted records and is non-negative, every
enrollment is ACTIVE with a non-negative fee snapshot, every penalty
amount is non-negative, and every course fee is non-negative. -/
def LedgerInv (st : DbState) : Prop :=
  (∀ u ∈ st.users, u.dues_balance = rawBalance st u.id ∧ 0 ≤ u.dues_balance)
  ∧ (∀ e ∈ st.enrollments, e.status = "ACTIVE" ∧ 0 ≤ e.course_fee)
  ∧ (∀ p ∈ st.penalties, 0 ≤ p.amount)
  ∧ (∀ c ∈ st.courses, 0 ≤ c.total_fee)

lemma sum_filter_append {α : Type} (l : List α) (x : α) (p : α → Bool)
    (f : α → Rat) :
    (((l ++ [x]).filter p).map f).sum
      = ((l.filter p).map f).sum + (if p x then f x else 0) := by
  rcases hx : p x <;> simp [List.filter_append, List.filter_cons, hx]

lemma sum_filter_eraseP {α : Type} (p q : α → Bool) (f : α → Rat) :
    ∀ (l : List α) (e : α), l.find? q = some e →
      (((l.eraseP q).filter p).map f).sum
        = ((l.filter p).map f).sum - (if p e then f e else 0) := by
  intro l
  induction l with
  | nil => intro e h; simp [List.find?] at h
  | cons a l ih =>
    intro e h
    rcases hq : q a with _ | _
    · rw [List.find?_cons_of_neg _ (by simp [hq])] at h
      rcases hp : p a
      · simp [List.eraseP_cons, hq, List.filter_cons, hp, ih e h]
      · simp only [List.eraseP_cons, hq, List.filter_cons, hp, cond_false,
          if_true, List.map_cons, List.sum_cons, ih e h]
        ring
    · rw [List.find?_cons_of_pos _ hq] at h
      cases h
      rcases hp : p a
      · simp [List.eraseP_cons, hq, List.filter_cons, hp]
      · simp only [List.eraseP_cons, hq, List.filter_cons, hp, cond_true,
          if_true, List.map_cons, List.sum_cons]
        ring

lemma sum_filter_nonneg {α : Type} (l : List α) (p : α → Bool) (f : α → Rat)
    (h : ∀ x ∈ l, 0 ≤ f x) : 0 ≤ ((l.filter p).map f).sum := by
  apply List.sum_nonneg
  intro x hx
  rcases List.mem_map.mp hx with ⟨a, ha, rfl⟩
  exact h a (List.mem_filter.mp ha).1

lemma sum_filter_eq_zero_of_filter_nil {α : Type} (l : List α)
    (p q : α → Bool) (f : α → Rat) (h : l.filter q = [])
    (hpq : ∀ x, p x = true → q x = true) :
    ((l.filter p).map f).sum = 0 := by
  have : l.filter p = [] := by
    rw [List.filter_eq_nil_iff]
    intro a ha hpa
    exact (List.filter_eq_nil_iff.mp h) a ha (hpq a hpa)
  simp [this]

lemma findUser_mem {st : DbState} {sid : Nat} {u : UserR}
    (h : findUser st sid = some u) : u ∈ st.users :=
  List.mem_of_find?_eq_some h

lemma findUser_id {st : DbState} {sid : Nat} {u : UserR}
    (h : findUser st sid = some u) : u.id = sid := by
  have := List.find?_some h
  simpa using this

lemma mem_setDues {us : List UserR} {sid : Nat} {b : Rat} {v : UserR}
    (h : v ∈ setDues us sid b) :
    ∃ u ∈ us, v = if u.id == sid then { u with dues_balance := b } else u := by
  rcases List.mem_map.mp h with ⟨u, hu, rfl⟩
  exact ⟨u, hu, rfl⟩

lemma findCourse_mem {st : DbState} {cid : Nat} {c : CourseR}
    (h : findCourse st cid = some c) : c ∈ st.courses :=
  List.mem_of_find?_eq_some h

lemma feeSumL_append (es : List EnrollmentR) (e : EnrollmentR) (x : Nat) :
    feeSumL (es ++ [e]) x
      = feeSumL es x
        + (if e.student_id == x && e.status == "ACTIVE" then e.course_fee else 0) := by
  simpa [feeSumL] using
    sum_filter_append es e (fun e => e.student_id == x && e.status == "ACTIVE")
      (fun e => e.course_fee)

lemma penSumL_append (ps : List PenaltyR) (p : PenaltyR) (x : Nat) :
    penSumL (ps ++ [p]) x
      = penSumL ps x + (if p.student_id == x then p.amount else 0) := by
  simpa [penSumL] using
    sum_filter_append ps p (fun p => p.student_id == x) (fun p => p.amount)

lemma recvSumL_append (ps : List PaymentR) (p : PaymentR) (x : Nat) :
    recvSumL (ps ++ [p]) x
      = recvSumL ps x
        + (if p.student_id == x && p.status == "RECEIVED" then p.amount else 0) := by
  simpa [recvSumL] using
    sum_filter_append ps p (fun p => p.student_id == x && p.status == "RECEIVED")
      (fun p => p.amount)

lemma feeSumL_eraseP (es : List EnrollmentR) (q : EnrollmentR → Bool)
    (e : EnrollmentR) (h : es.find? q = some e) (x : Nat) :
    feeSumL (es.eraseP q) x
      = feeSumL es x
        - (if e.student_id == x && e.status == "ACTIVE" then e.course_fee else 0) := by
  simpa [feeSumL] using
    sum_filter_eraseP (fun e => e.student_id == x && e.status == "ACTIVE") q
      (fun e => e.course_fee) es e h

/-- Stepping the user-table part of the invariant through a handler that
sets one student's balance: it suffices that the new value matches the new
state's recomputation for that student and that no other student's
recomputation moved. -/
lemma users_inv_update {st st' : DbState} {sid : Nat} {b : Rat}
    (husers : st'.users = setDues st.users sid b)
    (hb : b = rawBalance st' sid) (hb0 : 0 ≤ b)
    (hother : ∀ x, x ≠ sid → rawBalance st' x = rawBalance st x)
    (h : ∀ u ∈ st.users, u.dues_balance = rawBalance st u.id ∧ 0 ≤ u.dues_balance) :
    ∀ v ∈ st'.users, v.dues_balance = rawBalance st' v.id ∧ 0 ≤ v.dues_balance := by
  intro v hv
  rw [husers] at hv
  rcases mem_setDues hv with ⟨u, hu, rfl⟩
  rcases hid : u.id == sid with _ | _
  · have hne : u.id ≠ sid := by intro hEq; rw [hEq] at hid; simp at hid
    rw [if_neg (by simp)]
    rcases h u hu with ⟨h1, h2⟩
    exact ⟨h1.trans (hother u.id hne).symm, h2⟩
  · have heq : u.id = sid := by simpa using hid
    rw [if_pos rfl]
    exact ⟨by simpa [heq] using hb, hb0⟩

lemma rawBalance_eq (st : DbState) (x : Nat) :
    rawBalance st x
      = feeSumL st.enrollments x + penSumL st.penalties x
        - recvSumL st.payments x := rfl

lemma inv_enroll (st : DbState) (sid cid : Nat) (h : LedgerInv st) :
    LedgerInv (applyOp st (.enroll sid cid)) := by
  obtain ⟨h1, h2, h3, h4⟩ := h
  simp only [applyOp]
  rcases hU : findUser st sid with _ | student
  · simp only [enroll_course, hU]; exact ⟨h1, h2, h3, h4⟩
  rcases hC : findCourse st cid with _ | course
  · simp only [enroll_course, hU, hC]; exact ⟨h1, h2, h3, h4⟩
  rcases hE : findEnrollment st sid cid with _ | enr0
  · simp only [enroll_course, hU, hC, hE]
    have hsmem := findUser_mem hU
    have hsid := findUser_id hU
    have hcmem := findCourse_mem hC
    have hfee : (0 : Rat) ≤ course.total_fee := h4 course hcmem
    rcases h1 student hsmem with ⟨hs1, hs2⟩
    refine ⟨users_inv_update rfl ?_ ?_ ?_ h1, ?_, h3, h4⟩
    · rw [rawBalance_eq]
      simp only [feeSumL_append]
      rw [hs1, rawBalance_eq, hsid]
      simp only [beq_self_eq_true, Bool.and_self, if_true]
      ring
    · linarith
    · intro x hx
      rw [rawBalance_eq, rawBalance_eq]
      simp only [feeSumL_append]
      have : (sid == x) = false := by simp [Ne.symm hx]
      simp [this]
    · intro e he
      rcases List.mem_append.mp he with he | he
      · exact h2 e he
      · rcases List.mem_singleton.mp he with rfl
        exact ⟨rfl, hfee⟩
  · simp only [enroll_course, hU, hC, hE]; exact ⟨h1, h2, h3, h4⟩

lemma inv_drop (st : DbState) (sid cid : Nat) (h : LedgerInv st) :
    LedgerInv (applyOp st (.drop sid cid)) := by
  obtain ⟨h1, h2, h3, h4⟩ := h
  simp only [applyOp]
  rcases hU : findUser st sid with _ | student
  · simp only [drop_course, hU]; exact ⟨h1, h2, h3, h4⟩
  rcases hE : findEnrollment st sid cid with _ | enr
  · simp only [drop_course, hU, hE]; exact ⟨h1, h2, h3, h4⟩
  by_cases hP : 0 < (st.payments.filter (fun p => p.student_id == sid)).length
  · simp only [drop_course, hU, hE, if_pos hP]; exact ⟨h1, h2, h3, h4⟩
  have hfilnil : st.payments.filter (fun p => p.student_id == sid) = [] :=
    List.eq_nil_of_length_eq_zero (by omega)
  have hrecv0 : recvSumL st.payments sid = 0 := by
    simpa [recvSumL] using
      sum_filter_eq_zero_of_filter_nil st.payments
        (fun p => p.student_id == sid && p.status == "RECEIVED")
        (fun p => p.student_id == sid) (fun p => p.amount) hfilnil
        (fun x hx => by
          have hx' : (x.student_id == sid && x.status == "RECEIVED") = true := hx
          show (x.student_id == sid) = true
          rcases hxq : (x.student_id == sid) with _ | _
          · rw [hxq] at hx'; simp at hx'
          · rfl)
  have henr_mem : enr ∈ st.enrollments := List.mem_of_find?_eq_some hE
  obtain ⟨hact, hfee⟩ := h2 enr henr_mem
  have hq : enr.student_id = sid ∧ enr.course_id = cid := by
    simpa using List.find?_some hE
  have hsid_e : enr.student_id = sid := hq.1
  have hsmem := findUser_mem hU
  have hsid := findUser_id hU
  obtain ⟨hs1, hs2⟩ := h1 student hsmem
  have herase := feeSumL_eraseP st.enrollments
    (fun e => e.student_id == sid && e.course_id == cid) enr hE
  have hrem_nonneg : 0 ≤ feeSumL
      (st.enrollments.eraseP
        (fun e => e.student_id == sid && e.course_id == cid)) sid := by
    apply sum_filter_nonneg
    intro e he
    exact (h2 e (List.mem_of_mem_eraseP he)).2
  have hpen_nonneg : 0 ≤ penSumL st.penalties sid :=
    sum_filter_nonneg _ _ _ (fun p hp => h3 p hp)
  have hbal_expand : student.dues_balance - enr.course_fee
      = feeSumL (st.enrollments.eraseP
          (fun e => e.student_id == sid && e.course_id == cid)) sid
        + penSumL st.penalties sid := by
    rw [hs1, hsid, rawBalance_eq, hrecv0, herase sid]
    simp [hsid_e, hact]
    ring
  have hnneg : ¬ student.dues_balance - enr.course_fee < 0 := by
    rw [hbal_expand]; push_neg; linarith
  simp only [drop_course, hU, hE, if_neg hP, if_neg hnneg]
  refine ⟨users_inv_update rfl ?_ ?_ ?_ h1, ?_, h3, h4⟩
  · show student.dues_balance - enr.course_fee
      = feeSumL (st.enrollments.eraseP
          (fun e => e.student_id == sid && e.course_id == cid)) sid
        + penSumL st.penalties sid - recvSumL st.payments sid
    rw [hrecv0, hbal_expand]
    ring
  · rw [hbal_expand]; linarith
  · intro x hx
    show feeSumL (st.enrollments.eraseP
          (fun e => e.student_id == sid && e.course_id == cid)) x
        + penSumL st.penalties x - recvSumL st.payments x
      = feeSumL st.enrollments x + penSumL st.penalties x - recvSumL st.payments x
    rw [herase x]
    have hfx : (enr.student_id == x) = false := by
      rw [hsid_e]; simpa using Ne.symm hx
    simp [hfx]
  · intro e he
    exact h2 e (List.mem_of_mem_eraseP he)

lemma inv_pay (st : DbState) (sid : Nat) (amount : Rat) (method : String)
    (date : Rat) (h : LedgerInv st) :
    LedgerInv (applyOp st (.pay sid amount method date)) := by
  obtain ⟨h1, h2, h3, h4⟩ := h
  simp only [applyOp]
  by_cases hA : amount ≤ 0
  · simp only [make_payment, if_pos hA]; exact ⟨h1, h2, h3, h4⟩
  rcases hU : findUser st sid with _ | student
  · simp only [make_payment, if_neg hA, hU]; exact ⟨h1, h2, h3, h4⟩
  have hsmem := findUser_mem hU
  have hsid := findUser_id hU
  obtain ⟨hs1, hs2⟩ := h1 student hsmem
  by_cases hBT : method = "BANK_TRANSFER"
  · have hg : ¬ (method ≠ "BANK_TRANSFER" ∧ student.dues_balance < amount) := by
      intro hc; exact hc.1 hBT
    simp only [make_payment, if_neg hA, hU, if_neg hg, if_pos hBT,
      reduceCtorEq, if_neg (by decide : ¬ ("PENDING" : String) = "RECEIVED")]
    refine ⟨?_, h2, h3, h4⟩
    intro v hv
    rcases h1 v hv with ⟨hv1, hv2⟩
    refine ⟨?_, hv2⟩
    rw [hv1]
    show rawBalance st v.id
      = feeSumL st.enrollments v.id + penSumL st.penalties v.id
        - recvSumL (st.payments ++ [_]) v.id
    rw [recvSumL_append]
    simp [rawBalance_eq]
  · by_cases hO : student.dues_balance < amount
    · have hg : (method ≠ "BANK_TRANSFER" ∧ student.dues_balance < amount) :=
        ⟨hBT, hO⟩
      simp only [make_payment, if_neg hA, hU, if_pos hg]
      exact ⟨h1, h2, h3, h4⟩
    · have hg : ¬ (method ≠ "BANK_TRANSFER" ∧ student.dues_balance < amount) := by
        intro hc; exact hO hc.2
      simp only [make_payment, if_neg hA, hU, if_neg hg, if_neg hBT,
        if_pos (rfl : ("RECEIVED" : String) = "RECEIVED")]
      refine ⟨users_inv_update rfl ?_ ?_ ?_ h1, h2, h3, h4⟩
      · show student.dues_balance - amount
          = feeSumL st.enrollments sid + penSumL st.penalties sid
            - recvSumL (st.payments ++ [_]) sid
        rw [recvSumL_append]
        simp only [beq_self_eq_true, Bool.and_self, if_true]
        rw [hs1, hsid, rawBalance_eq]
        ring
      · linarith
      · intro x hx
        show feeSumL st.enrollments x + penSumL st.penalties x
            - recvSumL (st.payments ++ [_]) x
          = rawBalance st x
        rw [recvSumL_append]
        have hfx : (sid == x) = false := by simpa using Ne.symm hx
        simp [hfx, rawBalance_eq]

lemma inv_payExternal (st : DbState) (aid sid : Nat) (amount : Rat)
    (method : String) (now : Rat) (h : LedgerInv st)
    (hg : opOverCreditFree st (.payExternal aid sid amount method now) = true) :
    LedgerInv (applyOp st (.payExternal aid sid amount method now)) := by
  obtain ⟨h1, h2, h3, h4⟩ := h
  simp only [applyOp]
  by_cases hA : amount ≤ 0
  · simp only [record_external_payment, if_pos hA]; exact ⟨h1, h2, h3, h4⟩
  rcases hU : findUser st sid with _ | student
  · simp only [record_external_payment, if_neg hA, hU]; exact ⟨h1, h2, h3, h4⟩
  rcases hAdm : student.is_admin with _ | _
  · have hsmem := findUser_mem hU
    have hsid := findUser_id hU
    obtain ⟨hs1, hs2⟩ := h1 student hsmem
    have hle : amount ≤ student.dues_balance := by
      simp only [opOverCreditFree, hU] at hg
      exact of_decide_eq_true hg
    have hmax : max 0 (student.dues_balance - amount)
        = student.dues_balance - amount := max_eq_right (by linarith)
    simp only [record_external_payment, if_neg hA, hU, hAdm, Bool.false_eq_true,
      if_false, hmax]
    refine ⟨users_inv_update rfl ?_ ?_ ?_ h1, h2, h3, h4⟩
    · show student.dues_balance - amount
        = feeSumL st.enrollments sid + penSumL st.penalties sid
          - recvSumL (st.payments ++ [_]) sid
      rw [recvSumL_append]
      simp only [beq_self_eq_true, Bool.and_self, if_true]
      rw [hs1, hsid, rawBalance_eq]
      ring
    · linarith
    · intro x hx
      show feeSumL st.enrollments x + penSumL st.penalties x
          - recvSumL (st.payments ++ [_]) x
        = rawBalance st x
      rw [recvSumL_append]
      have hfx : (sid == x) = false := by simpa using Ne.symm hx
      simp [hfx, rawBalance_eq]
  · simp only [record_external_payment, if_neg hA, hU, hAdm, if_pos rfl]
    exact ⟨h1, h2, h3, h4⟩

lemma inv_penalize (st : DbState) (aid sid : Nat) (amount : Rat)
    (ptype : String) (h : LedgerInv st) :
    LedgerInv (applyOp st (.penalize aid sid amount ptype)) := by
  obtain ⟨h1, h2, h3, h4⟩ := h
  simp only [applyOp]
  by_cases hA : amount ≤ 0
  · simp only [apply_penalty, if_pos hA]; exact ⟨h1, h2, h3, h4⟩
  rcases hU : findUser st sid with _ | student
  · simp only [apply_penalty, if_neg hA, hU]; exact ⟨h1, h2, h3, h4⟩
  rcases hAdm : student.is_admin with _ | _
  · have hsmem := findUser_mem hU
    have hsid := findUser_id hU
    obtain ⟨hs1, hs2⟩ := h1 student hsmem
    simp only [apply_penalty, if_neg hA, hU, hAdm, Bool.false_eq_true,
      if_false]
    refine ⟨users_inv_update rfl ?_ ?_ ?_ h1, h2, ?_, h4⟩
    · show student.dues_balance + amount
        = feeSumL st.enrollments sid + penSumL (st.penalties ++ [_]) sid
          - recvSumL st.payments sid
      rw [penSumL_append]
      simp only [beq_self_eq_true, if_true]
      rw [hs1, hsid, rawBalance_eq]
      ring
    · linarith
    · intro x hx
      show feeSumL st.enrollments x + penSumL (st.penalties ++ [_]) x
          - recvSumL st.payments x
        = rawBalance st x
      rw [penSumL_append]
      have hfx : (sid == x) = false := by simpa using Ne.symm hx
      simp [hfx, rawBalance_eq]
    · intro p hp
      rcases List.mem_append.mp hp with hp | hp
      · exact h3 p hp
      · rcases List.mem_singleton.mp hp with rfl
        dsimp only
        linarith
  · simp only [apply_penalty, if_neg hA, hU, hAdm, if_pos rfl]
    exact ⟨h1, h2, h3, h4⟩

lemma inv_matchCreate (st : DbState) (aid tid sid : Nat) (now : Rat)
    (h : LedgerInv st)
    (hg : opOverCreditFree st (.matchCreate aid tid sid now) = true) :
    LedgerInv (applyOp st (.matchCreate aid tid sid now)) := by
  obtain ⟨h1, h2, h3, h4⟩ := h
  simp only [applyOp]
  rcases hT : st.bank_txns.find? (fun t => t.id == tid) with _ | txn
  · simp only [match_bank_create, hT]; exact ⟨h1, h2, h3, h4⟩
  rcases hU : findUser st sid with _ | student
  · simp only [match_bank_create, hT, hU]; exact ⟨h1, h2, h3, h4⟩
  have hsmem := findUser_mem hU
  have hsid := findUser_id hU
  obtain ⟨hs1, hs2⟩ := h1 student hsmem
  have hle : txn.amount ≤ student.dues_balance := by
    simp only [opOverCreditFree, hT, hU] at hg
    exact of_decide_eq_true hg
  have hmax : max 0 (student.dues_balance - txn.amount)
      = student.dues_balance - txn.amount := max_eq_right (by linarith)
  simp only [match_bank_create, hT, hU, hmax]
  refine ⟨users_inv_update rfl ?_ ?_ ?_ h1, h2, h3, h4⟩
  · show student.dues_balance - txn.amount
      = feeSumL st.enrollments sid + penSumL st.penalties sid
        - recvSumL (st.payments ++ [_]) sid
    rw [recvSumL_append]
    simp only [beq_self_eq_true, Bool.and_self, if_true]
    rw [hs1, hsid, rawBalance_eq]
    ring
  · linarith
  · intro x hx
    show feeSumL st.enrollments x + penSumL st.penalties x
        - recvSumL (st.payments ++ [_]) x
      = rawBalance st x
    rw [recvSumL_append]
    have hfx : (sid == x) = false := by simpa using Ne.symm hx
    simp [hfx, rawBalance_eq]

/-- One over-credit-free operation preserves the ledger invariant. -/
lemma inv_applyOp (st : DbState) (op : Op) (h : LedgerInv st)
    (hg : opOverCreditFree st op = true) : LedgerInv (applyOp st op) := by
  cases op with
  | enroll sid cid => exact inv_enroll st sid cid h
  | drop sid cid => exact inv_drop st sid cid h
  | pay sid amount method date => exact inv_pay st sid amount method date h
  | payExternal aid sid amount method now =>
    exact inv_payExternal st aid sid amount method now h hg
  | penalize aid sid amount ptype => exact inv_penalize st aid sid amount ptype h
  | matchCreate aid tid sid now => exact inv_matchCreate st aid tid sid now h hg

/-- A good run preserves the ledger invariant. -/
lemma inv_applyOps (ops : List Op) : ∀ (st : DbState), LedgerInv st →
    goodRun st ops = true → LedgerInv (applyOps st ops) := by
  induction ops with
  | nil => intro st h _; exact h
  | cons op ops ih =>
    intro st h hg
    rcases Bool.and_eq_true_iff.mp hg with ⟨hg1, hg2⟩
    exact ih (applyOp st op) (inv_applyOp st op h hg1) hg2

/-- The ledger invariant is decidable, so concrete stores can be checked
by evaluation. -/
instance (st : DbState) : Decidable (LedgerInv st) := by
  unfold LedgerInv; infer_instance

/-- Store with one student owing nothing and two courses, used to refute
claim C1 as stated. -/
def cexState1 : DbState :=
  { users := [{ id := 1, username := "alice", is_admin := false, dues_balance := 0 }],
    courses := [{ id := 1, name := "Calculus", total_fee := 1000 },
                { id := 2, name := "Physics", total_fee := 2000 }],
    enrollments := [], payments := [], penalties := [], bank_txns := [],
    reports := [], next_payment_id := 1 }

/-- Enroll in course 1, admin-record an external payment of 5000 (which the
handler floors at zero instead of rejecting), then enroll in course 2. -/
def cexOps1 : List Op :=
  [.enroll 1 1, .payExternal 9 1 5000 "MANUAL" 0, .enroll 1 2]

/-- Claim C1 is false as stated: after enrolling (fee 1000), having an
external payment of 5000 recorded (balance floored at 0, RECEIVED row of
5000 kept) and enrolling again (fee 2000), the stored dues_balance is 2000
while the recomputation from the persisted records gives
max 0 (3000 + 0 - 5000) = 0. -/
theorem claim_C1_counterexample :
    ((findUser (applyOps cexState1 cexOps1) 1).map (fun u => u.dues_balance)
        = some 2000)
    ∧ recomputed_balance (applyOps cexState1 cexOps1) 1 = 0 :=
  of_decide_eq_true (by with_unfolding_all rfl)

/-- Claim C1 (amended): for every student and every sequence of ledger
operations in which no admin-recorded RECEIVED payment (external payment or
bank-match payment creation) exceeds the student's balance at the time --
so the max-with-zero floor of those two handlers never clamps -- the
stored dues_balance equals max 0 (active enrollment fee snapshots +
penalties - RECEIVED payment amounts) recomputed from the persisted
records.  An over-crediting clamped payment breaks the equality at the
next enroll or penalty, as the counterexample shows. -/
theorem claim_C1 (st : DbState) (ops : List Op) (h : LedgerInv st)
    (hg : goodRun st ops = true) :
    ∀ u ∈ (applyOps st ops).users,
      u.dues_balance = recomputed_balance (applyOps st ops) u.id := by
  intro u hu
  obtain ⟨h1, -, -, -⟩ := inv_applyOps ops st h hg
  rcases h1 u hu with ⟨e1, e2⟩
  rw [e1]
  show rawBalance _ u.id = recomputed_balance _ u.id
  have h0 : (0 : Rat) ≤ rawBalance (applyOps st ops) u.id := e1 ▸ e2
  show rawBalance _ u.id = max 0 (rawBalance _ u.id)
  exact (max_eq_right h0).symm

/-- Store and run exercising claim C1's hypotheses concretely: a fresh
student enrolls (fee 500) and pays 200 manually. -/
def witState1 : DbState :=
  { users := [{ id := 1, username := "bob", is_admin := false, dues_balance := 0 }],
    courses := [{ id := 1, name := "Algebra", total_fee := 500 }],
    enrollments := [], payments := [], penalties := [], bank_txns := [],
    reports := [], next_payment_id := 1 }

/-- The run used by the claim C1 witness. -/
def witOps1 : List Op := [.enroll 1 1, .pay 1 200 "MANUAL" 0]

/-- Witness for claim C1: its hypotheses hold of the concrete store and run
above, and the conclusion follows by the theorem. -/
theorem claim_C1_witness :
    LedgerInv witState1 ∧ goodRun witState1 witOps1 = true
    ∧ ∀ u ∈ (applyOps witState1 witOps1).users,
        u.dues_balance = recomputed_balance (applyOps witState1 witOps1) u.id :=
  ⟨of_decide_eq_true (by with_unfolding_all rfl),
   of_decide_eq_true (by with_unfolding_all rfl),
   claim_C1 witState1 witOps1 (of_decide_eq_true (by with_unfolding_all rfl))
     (of_decide_eq_true (by with_unfolding_all rfl))⟩

lemma find?_map_of_pred_eq {α : Type} (g : α → α) (p : α → Bool)
    (hg : ∀ a, p (g a) = p a) :
    ∀ l : List α, (l.map g).find? p = (l.find? p).map g := by
  intro l
  induction l with
  | nil => rfl
  | cons a l ih =>
    rcases hpa : p a with _ | _
    · rw [List.map_cons, List.find?_cons_of_neg _ (by simp [hg, hpa]),
        List.find?_cons_of_neg _ (by simp [hpa]), ih]
    · rw [List.map_cons, List.find?_cons_of_pos _ (by simp [hg, hpa]),
        List.find?_cons_of_pos _ hpa]
      rfl

lemma findUser_after_setDues (st : DbState) (sid : Nat) (b : Rat)
    {u : UserR} (hU : findUser st sid = some u) :
    (setDues st.users sid b).find? (fun v => v.id == sid)
      = some { u with dues_balance := b } := by
  have hg : ∀ v : UserR,
      (((if v.id == sid then { v with dues_balance := b } else v).id == sid))
        = (v.id == sid) := by
    intro v
    rcases hv : v.id == sid with _ | _
    · rw [if_neg (by simp [hv])]; exact hv
    · rw [if_pos (by simp [hv])]; exact hv
  have hmap := find?_map_of_pred_eq
    (fun v : UserR => if v.id == sid then { v with dues_balance := b } else v)
    (fun v => v.id == sid) hg st.users
  have hU' : st.users.find? (fun v => v.id == sid) = some u := hU
  show (st.users.map
      (fun v => if v.id == sid then { v with dues_balance := b } else v)).find?
        (fun v => v.id == sid) = _
  rw [hmap, hU']
  have hid : (u.id == sid) = true := by
    have := findUser_id hU; simp [this]
  show some (if u.id == sid then { u with dues_balance := b } else u) = _
  rw [if_pos hid]

/-- Claim C2: a student payment with a non-positive amount fails with
InvalidArgument (nothing recorded); with method BANK_TRANSFER it succeeds
with a PENDING payment row and the user table (hence dues_balance)
unchanged; with any other method it fails with InvalidArgument when the
amount exceeds the current balance, and otherwise succeeds with a RECEIVED
payment row and the student's balance decremented by the amount. -/
theorem claim_C2 (st : DbState) (sid : Nat) (u : UserR) (amount : Rat)
    (method : String) (date : Rat) (hU : findUser st sid = some u) :
    (amount ≤ 0 →
      make_payment st sid amount method date = .error .invalidArgument)
    ∧ (0 < amount → method = "BANK_TRANSFER" →
      ∃ st' pay, make_payment st sid amount method date = .ok (st', pay)
        ∧ pay.status = "PENDING" ∧ st'.users = st.users
        ∧ st'.payments = st.payments ++ [pay])
    ∧ (method ≠ "BANK_TRANSFER" → u.dues_balance < amount →
      make_payment st sid amount method date = .error .invalidArgument)
    ∧ (method ≠ "BANK_TRANSFER" → 0 < amount → amount ≤ u.dues_balance →
      ∃ st' pay, make_payment st sid amount method date = .ok (st', pay)
        ∧ pay.status = "RECEIVED" ∧ st'.payments = st.payments ++ [pay]
        ∧ findUser st' sid
            = some { u with dues_balance := u.dues_balance - amount }) := by
  refine ⟨?_, ?_, ?_, ?_⟩
  · intro hA
    simp only [make_payment, if_pos hA]
  · intro hA hBT
    have hA' : ¬ amount ≤ 0 := by linarith
    have hg : ¬ (method ≠ "BANK_TRANSFER" ∧ u.dues_balance < amount) := by
      intro hc; exact hc.1 hBT
    refine ⟨{ st with
        payments := st.payments
          ++ [⟨st.next_payment_id, sid, amount, date, method, "PENDING", none⟩],
        next_payment_id := st.next_payment_id + 1 },
      ⟨st.next_payment_id, sid, amount, date, method, "PENDING", none⟩,
      ?_, rfl, rfl, rfl⟩
    simp only [make_payment, if_neg hA', hU, if_neg hg, if_pos hBT,
      if_neg (by decide : ¬ ("PENDING" : String) = "RECEIVED")]
  · intro hBT hO
    by_cases hA : amount ≤ 0
    · simp only [make_payment, if_pos hA]
    · have hg : (method ≠ "BANK_TRANSFER" ∧ u.dues_balance < amount) := ⟨hBT, hO⟩
      simp only [make_payment, if_neg hA, hU, if_pos hg]
  · intro hBT hA hle
    have hA' : ¬ amount ≤ 0 := by linarith
    have hg : ¬ (method ≠ "BANK_TRANSFER" ∧ u.dues_balance < amount) := by
      intro hc; linarith [hc.2]
    refine ⟨{ st with
        users := setDues st.users sid (u.dues_balance - amount),
        payments := st.payments
          ++ [⟨st.next_payment_id, sid, amount, date, method, "RECEIVED", none⟩],
        next_payment_id := st.next_payment_id + 1 },
      ⟨st.next_payment_id, sid, amount, date, method, "RECEIVED", none⟩,
      ?_, rfl, rfl, ?_⟩
    · simp only [make_payment, if_neg hA', hU, if_neg hg, if_neg hBT,
        if_pos (rfl : ("RECEIVED" : String) = "RECEIVED")]
      rw [if_pos trivial]
    · show (setDues st.users sid (u.dues_balance - amount)).find?
          (fun v => v.id == sid) = _
      exact findUser_after_setDues st sid (u.dues_balance - amount) hU

/-- The single student row of the claim C2 witness store. -/
def witUser2 : UserR := { id := 1, username := "carol", is_admin := false, dues_balance := 1000 }

/-- The claim C2 witness store: one student owing 1000. -/
def witState2 : DbState :=
  { users := [witUser2], courses := [], enrollments := [], payments := [],
    penalties := [], bank_txns := [], reports := [], next_payment_id := 1 }

/-- Witness for claim C2: all four branches exercised on the concrete store
above by applying the theorem and discharging its hypotheses there. -/
theorem claim_C2_witness :
    (make_payment witState2 1 (-5) "MANUAL" 0 = .error .invalidArgument)
    ∧ (∃ st' pay, make_payment witState2 1 400 "BANK_TRANSFER" 0 = .ok (st', pay)
        ∧ pay.status = "PENDING" ∧ st'.users = witState2.users
        ∧ st'.payments = witState2.payments ++ [pay])
    ∧ (make_payment witState2 1 2000 "MANUAL" 0 = .error .invalidArgument)
    ∧ (∃ st' pay, make_payment witState2 1 400 "MANUAL" 0 = .ok (st', pay)
        ∧ pay.status = "RECEIVED" ∧ st'.payments = witState2.payments ++ [pay]
        ∧ findUser st' 1
            = some { witUser2 with
                      dues_balance := witUser2.dues_balance - 400 }) := by
  have hU : findUser witState2 1 = some witUser2 := rfl
  exact ⟨(claim_C2 witState2 1 witUser2 (-5) "MANUAL" 0 hU).1 (by norm_num),
         (claim_C2 witState2 1 witUser2 400 "BANK_TRANSFER" 0 hU).2.1
           (by norm_num) rfl,
         (claim_C2 witState2 1 witUser2 2000 "MANUAL" 0 hU).2.2.1
           (by decide) (by norm_num [witUser2]),
         (claim_C2 witState2 1 witUser2 400 "MANUAL" 0 hU).2.2.2
           (by decide) (by norm_num) (by norm_num [witUser2])⟩

/-- Claim C3: when a student owes b greater than zero, a payment of exactly
b with any method other than BANK_TRANSFER succeeds and leaves the stored
balance at exactly 0, never negative. -/
theorem claim_C3 (st : DbState) (sid : Nat) (u : UserR) (method : String)
    (date : Rat) (hU : findUser st sid = some u) (hb : 0 < u.dues_balance)
    (hm : method ≠ "BANK_TRANSFER") :
    ∃ st' pay, make_payment st sid u.dues_balance method date = .ok (st', pay)
      ∧ findUser st' sid = some { u with dues_balance := 0 } := by
  have hA' : ¬ u.dues_balance ≤ 0 := by linarith
  have hg : ¬ (method ≠ "BANK_TRANSFER" ∧ u.dues_balance < u.dues_balance) := by
    intro hc; exact absurd hc.2 (lt_irrefl _)
  refine ⟨{ st with
      users := setDues st.users sid (u.dues_balance - u.dues_balance),
      payments := st.payments
        ++ [⟨st.next_payment_id, sid, u.dues_balance, date, method, "RECEIVED", none⟩],
      next_payment_id := st.next_payment_id + 1 },
    ⟨st.next_payment_id, sid, u.dues_balance, date, method, "RECEIVED", none⟩,
    ?_, ?_⟩
  · simp only [make_payment, if_neg hA', hU, if_neg hg, if_neg hm,
      if_pos (rfl : ("RECEIVED" : String) = "RECEIVED")]
    rw [if_pos trivial]
  · show (setDues st.users sid (u.dues_balance - u.dues_balance)).find?
        (fun v => v.id == sid) = _
    rw [findUser_after_setDues st sid (u.dues_balance - u.dues_balance) hU,
      sub_self]

/-- The single student row of the claim C3 witness store. -/
def witUser3 : UserR := { id := 1, username := "dave", is_admin := false, dues_balance := 3000 }

/-- The claim C3 witness store: one student owing 3000. -/
def witState3 : DbState :=
  { users := [witUser3], courses := [], enrollments := [], payments := [],
    penalties := [], bank_txns := [], reports := [], next_payment_id := 1 }

/-- Witness for claim C3: paying the exact balance of 3000 manually leaves
the stored balance at 0. -/
theorem claim_C3_witness :
    ∃ st' pay, make_payment witState3 1 witUser3.dues_balance "MANUAL" 0
        = .ok (st', pay)
      ∧ findUser st' 1 = some { witUser3 with dues_balance := 0 } :=
  claim_C3 witState3 1 witUser3 "MANUAL" 0 rfl (by norm_num [witUser3])
    (by decide)

lemma ite_neg_zero_eq_max (x : Rat) : (if x < 0 then (0:Rat) else x) = max 0 x := by
  by_cases h : x < 0
  · rw [if_pos h, max_eq_left (le_of_lt h)]
  · rw [if_neg h, max_eq_right (not_lt.mp h)]

/-- Claim C4: dropping fails with NotFound when no active enrollment for
the pair exists (in every reachable store all enrollments are ACTIVE, which
is the first hypothesis); it fails with Conflict, leaving the store
untouched, when the student has any payment row at all; otherwise it
deletes the enrollment and decrements the balance by the fee snapshot,
clamped at zero. -/
theorem claim_C4 (st : DbState) (sid cid : Nat) (u : UserR)
    (hU : findUser st sid = some u) :
    ((∀ e ∈ st.enrollments, e.status = "ACTIVE") →
      (¬ ∃ e ∈ st.enrollments,
        e.student_id = sid ∧ e.course_id = cid ∧ e.status = "ACTIVE") →
      drop_course st sid cid = .error .notFound)
    ∧ (∀ e, findEnrollment st sid cid = some e →
        0 < (st.payments.filter (fun p => p.student_id == sid)).length →
        drop_course st sid cid = .error .conflict)
    ∧ (∀ e, findEnrollment st sid cid = some e →
        (st.payments.filter (fun p => p.student_id == sid)).length = 0 →
        ∃ st', drop_course st sid cid
            = .ok (st', max 0 (u.dues_balance - e.course_fee))
          ∧ st'.enrollments = st.enrollments.eraseP
              (fun x => x.student_id == sid && x.course_id == cid)
          ∧ findUser st' sid
              = some { u with
                  dues_balance := max 0 (u.dues_balance - e.course_fee) }) := by
  refine ⟨?_, ?_, ?_⟩
  · intro hAct hNo
    have hE : findEnrollment st sid cid = none := by
      rcases hE' : findEnrollment st sid cid with _ | e
      · rfl
      · exfalso
        have hmem : e ∈ st.enrollments := List.mem_of_find?_eq_some hE'
        have hpred : e.student_id = sid ∧ e.course_id = cid := by
          simpa using List.find?_some hE'
        exact hNo ⟨e, hmem, hpred.1, hpred.2, hAct e hmem⟩
    simp only [drop_course, hU, hE]
  · intro e he hp
    simp only [drop_course, hU, he, if_pos hp]
  · intro e he hp
    have hnp : ¬ 0 < (st.payments.filter (fun p => p.student_id == sid)).length := by
      omega
    refine ⟨{ st with
        users := setDues st.users sid (max 0 (u.dues_balance - e.course_fee)),
        enrollments := st.enrollments.eraseP
          (fun x => x.student_id == sid && x.course_id == cid) },
      ?_, rfl, ?_⟩
    · simp only [drop_course, hU, he, if_neg hnp, ite_neg_zero_eq_max]
    · show (setDues st.users sid (max 0 (u.dues_balance - e.course_fee))).find?
          (fun v => v.id == sid) = _
      exact findUser_after_setDues st sid _ hU

/-- The student row of the claim C4 witness stores. -/
def witUser4 : UserR := { id := 1, username := "erin", is_admin := false, dues_balance := 700 }

/-- Claim C4 witness store without payments: one ACTIVE enrollment of
snapshot 700 in course 10. -/
def witState4 : DbState :=
  { users := [witUser4], courses := [],
    enrollments := [{ student_id := 1, course_id := 10, course_fee := 700,
                      status := "ACTIVE" }],
    payments := [], penalties := [], bank_txns := [], reports := [],
    next_payment_id := 1 }

/-- Claim C4 witness store with one PENDING payment row. -/
def witState4b : DbState :=
  { witState4 with
    payments := [{ id := 1, student_id := 1, amount := 50, payment_date := 0,
                   payment_method := "BANK_TRANSFER", status := "PENDING",
                   recorded_by := none }] }

/-- Witness for claim C4: dropping a course the student is not enrolled in
fails NotFound, dropping with a payment row on file fails Conflict, and a
clean drop deletes the enrollment and clamps the balance at zero. -/
theorem claim_C4_witness :
    (drop_course witState4 1 99 = .error .notFound)
    ∧ (drop_course witState4b 1 10 = .error .conflict)
    ∧ (∃ st', drop_course witState4 1 10
          = .ok (st', max 0 (witUser4.dues_balance - 700))
        ∧ st'.enrollments = witState4.enrollments.eraseP
            (fun x => x.student_id == 1 && x.course_id == 10)
        ∧ findUser st' 1
            = some { witUser4 with
                dues_balance := max 0 (witUser4.dues_balance - 700) }) := by
  refine ⟨(claim_C4 witState4 1 99 witUser4 rfl).1 (by decide) ?_,
          (claim_C4 witState4b 1 10 witUser4 rfl).2.1
            { student_id := 1, course_id := 10, course_fee := 700,
              status := "ACTIVE" } rfl (by decide),
          ?_⟩
  · rintro ⟨e, hmem, h1, h2, h3⟩
    have : e = { student_id := 1, course_id := 10, course_fee := 700,
                 status := "ACTIVE" } := by
      simpa [witState4] using hmem
    rw [this] at h2
    simp at h2
  · have := (claim_C4 witState4 1 10 witUser4 rfl).2.2
      { student_id := 1, course_id := 10, course_fee := 700,
        status := "ACTIVE" } rfl (by decide)
    simpa using this

/-- Sync accumulator already holding a transaction with bank_ref B1, used
by claim C5. -/
def cexSync5 : SyncSt :=
  { txns := [{ id := 1, bank_ref := "B1", amount := 100, transaction_date := 0,
               status := "Unmatched", matched_payment_id := none,
               matched_student_id := none, matched_by := none,
               matched_at := none }],
    next_txn_id := 2, imported_count := 0, auto_matched := 0, unmatched := 0,
    duplicates_skipped := 0 }

/-- A batch entry whose bank_ref B1 already exists but whose amount is
zero, so the required-field truthiness check silently drops it before the
duplicate check runs. -/
def cexEntry5 : SyncEntry :=
  { bank_ref := "B1", amount := 0, date_present := true, date := some 0 }

/-- Claim C5 is false as stated: this entry's bank_ref already exists among
the stored transactions, yet processing it leaves the whole accumulator --
duplicates_skipped included -- unchanged at 0 instead of counting it,
because the Python truthiness test on the amount (zero is falsy) skips the
entry before the duplicate check. -/
theorem claim_C5_counterexample :
    (cexSync5.txns.any (fun t => t.bank_ref == cexEntry5.bank_ref)) = true
    ∧ sync_entry_step [] 9 0 cexSync5 cexEntry5 = cexSync5
    ∧ (sync_entry_step [] 9 0 cexSync5 cexEntry5).duplicates_skipped = 0 :=
  of_decide_eq_true (by with_unfolding_all rfl)

/-- Claim C5 (amended): an entry that passes the required-field check
(nonempty bank_ref, nonzero amount, a date value present) and whose
bank_ref already exists among the stored transactions is counted in
duplicates_skipped, and nothing else changes: no transaction row is
created and the existing rows are untouched, so re-importing such an entry
is a no-op apart from the duplicate counter. -/
theorem claim_C5 (payments : List PaymentR) (admin_id : Nat) (now : Rat)
    (s : SyncSt) (e : SyncEntry) (hr : e.bank_ref ≠ "") (ha : e.amount ≠ 0)
    (hd : e.date_present = true)
    (hdup : (s.txns.find? (fun t => t.bank_ref == e.bank_ref)).isSome) :
    sync_entry_step payments admin_id now s e
      = { s with duplicates_skipped := s.duplicates_skipped + 1 } := by
  have hcond : ¬ (e.bank_ref = "" ∨ e.amount = 0 ∨ e.date_present = false) := by
    simp [hr, ha, hd]
  simp only [sync_entry_step, if_neg hcond, if_pos hdup]

/-- A well-formed duplicate entry used by the claim C5 witness. -/
def witEntry5 : SyncEntry :=
  { bank_ref := "B1", amount := 100, date_present := true, date := some 3 }

/-- Witness for claim C5: a well-formed entry whose bank_ref already
exists is counted as a duplicate and nothing else changes. -/
theorem claim_C5_witness :
    sync_entry_step [] 9 0 cexSync5 witEntry5
      = { cexSync5 with duplicates_skipped := cexSync5.duplicates_skipped + 1 } :=
  claim_C5 [] 9 0 cexSync5 witEntry5 (by decide)
    (of_decide_eq_true (by with_unfolding_all rfl)) rfl
    (of_decide_eq_true (by with_unfolding_all rfl))

/-- Claim C6: an imported entry with a fresh bank_ref is auto-matched
exactly when some stored payment has the identical amount and a
payment_date within seven days either way of the transaction date: in that
case the appended transaction carries status Matched with
matched_payment_id, matched_student_id, matched_by and matched_at all
stamped; otherwise the appended transaction is left Unmatched. -/
theorem claim_C6 (payments : List PaymentR) (admin_id : Nat) (now : Rat)
    (s : SyncSt) (e : SyncEntry) (hr : e.bank_ref ≠ "") (ha : e.amount ≠ 0)
    (hd : e.date_present = true)
    (hfresh : s.txns.find? (fun t => t.bank_ref == e.bank_ref) = none) :
    ((∃ p ∈ payments, p.amount = e.amount
        ∧ e.date.getD now - 7 ≤ p.payment_date
        ∧ p.payment_date ≤ e.date.getD now + 7) →
      ∃ p, p ∈ payments ∧ p.amount = e.amount
        ∧ e.date.getD now - 7 ≤ p.payment_date
        ∧ p.payment_date ≤ e.date.getD now + 7
        ∧ sync_entry_step payments admin_id now s e
          = { s with
              txns := s.txns
                ++ [{ id := s.next_txn_id, bank_ref := e.bank_ref,
                      amount := e.amount,
                      transaction_date := e.date.getD now,
                      status := "Matched",
                      matched_payment_id := some p.id,
                      matched_student_id := some p.student_id,
                      matched_by := some admin_id,
                      matched_at := some now }],
              next_txn_id := s.next_txn_id + 1,
              auto_matched := s.auto_matched + 1,
              imported_count := s.imported_count + 1 })
    ∧ ((¬ ∃ p ∈ payments, p.amount = e.amount
        ∧ e.date.getD now - 7 ≤ p.payment_date
        ∧ p.payment_date ≤ e.date.getD now + 7) →
      sync_entry_step payments admin_id now s e
        = { s with
            txns := s.txns
              ++ [{ id := s.next_txn_id, bank_ref := e.bank_ref,
                    amount := e.amount,
                    transaction_date := e.date.getD now,
                    status := "Unmatched",
                    matched_payment_id := none, matched_student_id := none,
                    matched_by := none, matched_at := none }],
            next_txn_id := s.next_txn_id + 1,
            unmatched := s.unmatched + 1,
            imported_count := s.imported_count + 1 }) := by
  have hcond : ¬ (e.bank_ref = "" ∨ e.amount = 0 ∨ e.date_present = false) := by
    simp [hr, ha, hd]
  have hns : ¬ ((s.txns.find? (fun t => t.bank_ref == e.bank_ref)).isSome = true) := by
    simp [hfresh]
  constructor
  · intro hex
    rcases hfind : payments.find? (fun p =>
        decide (p.amount = e.amount)
          && decide (e.date.getD now - 7 ≤ p.payment_date)
          && decide (p.payment_date ≤ e.date.getD now + 7)) with _ | p
    · exfalso
      rcases hex with ⟨p, hmem, h1, h2, h3⟩
      have := List.find?_eq_none.mp hfind p hmem
      simp [h1, h2, h3] at this
    · have hmem : p ∈ payments := List.mem_of_find?_eq_some hfind
      have hb0 := List.find?_some hfind
      have hb : (decide (p.amount = e.amount)
          && decide (e.date.getD now - 7 ≤ p.payment_date)
          && decide (p.payment_date ≤ e.date.getD now + 7)) = true := hb0
      rcases Bool.and_eq_true_iff.mp hb with ⟨hb12, hb3⟩
      rcases Bool.and_eq_true_iff.mp hb12 with ⟨hb1, hb2⟩
      refine ⟨p, hmem, of_decide_eq_true hb1, of_decide_eq_true hb2,
        of_decide_eq_true hb3, ?_⟩
      simp only [sync_entry_step, if_neg hcond, if_neg hns, hfind]
  · intro hnone
    rcases hfind : payments.find? (fun p =>
        decide (p.amount = e.amount)
          && decide (e.date.getD now - 7 ≤ p.payment_date)
          && decide (p.payment_date ≤ e.date.getD now + 7)) with _ | p
    · simp only [sync_entry_step, if_neg hcond, if_neg hns, hfind]
    · exfalso
      have hmem : p ∈ payments := List.mem_of_find?_eq_some hfind
      have hb0 := List.find?_some hfind
      have hb : (decide (p.amount = e.amount)
          && decide (e.date.getD now - 7 ≤ p.payment_date)
          && decide (p.payment_date ≤ e.date.getD now + 7)) = true := hb0
      rcases Bool.and_eq_true_iff.mp hb with ⟨hb12, hb3⟩
      rcases Bool.and_eq_true_iff.mp hb12 with ⟨hb1, hb2⟩
      exact hnone ⟨p, hmem, of_decide_eq_true hb1, of_decide_eq_true hb2,
        of_decide_eq_true hb3⟩

/-- Scenario D payment: RECEIVED, amount 2500, dated day 3. -/
def witPay6 : PaymentR :=
  { id := 7, student_id := 4, amount := 2500, payment_date := 3,
    payment_method := "MANUAL", status := "RECEIVED", recorded_by := none }

/-- Scenario D entry: fresh bank_ref, amount 2500, dated day 0. -/
def witEntry6 : SyncEntry :=
  { bank_ref := "BT1", amount := 2500, date_present := true, date := some 0 }

/-- The empty sync accumulator used by the claim C6 witness. -/
def witSync6 : SyncSt :=
  { txns := [], next_txn_id := 1, imported_count := 0, auto_matched := 0,
    unmatched := 0, duplicates_skipped := 0 }

/-- Witness for claim C6, scenario D: a transaction of 2500 dated day 0
auto-matches the RECEIVED payment of 2500 dated day 3. -/
theorem claim_C6_witness :
    ∃ p, p ∈ [witPay6] ∧ p.amount = witEntry6.amount
      ∧ witEntry6.date.getD 0 - 7 ≤ p.payment_date
      ∧ p.payment_date ≤ witEntry6.date.getD 0 + 7
      ∧ sync_entry_step [witPay6] 9 0 witSync6 witEntry6
        = { witSync6 with
            txns := witSync6.txns
              ++ [{ id := witSync6.next_txn_id, bank_ref := witEntry6.bank_ref,
                    amount := witEntry6.amount,
                    transaction_date := witEntry6.date.getD 0,
                    status := "Matched",
                    matched_payment_id := some p.id,
                    matched_student_id := some p.student_id,
                    matched_by := some 9,
                    matched_at := some 0 }],
            next_txn_id := witSync6.next_txn_id + 1,
            auto_matched := witSync6.auto_matched + 1,
            imported_count := witSync6.imported_count + 1 } :=
  (claim_C6 [witPay6] 9 0 witSync6 witEntry6 (by decide)
      (by norm_num [witEntry6]) rfl rfl).1
    ⟨witPay6, List.mem_singleton_self _, rfl,
      by norm_num [witEntry6, witPay6],
      by norm_num [witEntry6, witPay6]⟩

/-- Claim C7 (evaluation of the code at the failing input, for every
store): the dues report's student query conjoins dues_balance > 0 with the
criterion User.is_admin is False, which is the Python constant False, so
the query matches no row and the report is always empty with zero totals --
regardless of the stored students, the amount filters and the sort key.
The claim (and the handler's own docstring) say it lists the non-admin
students with positive dues. -/
theorem claim_C7 (st : DbState) (mn mx : Option Rat) (sb : String) :
    (get_outstanding_dues st mn mx sb).students = []
    ∧ (get_outstanding_dues st mn mx sb).total_students_with_dues = 0
    ∧ (get_outstanding_dues st mn mx sb).total_outstanding_amount = 0 := by
  rcases mn with _ | m1 <;> rcases mx with _ | m2 <;>
    by_cases hsb : sb = "username" <;>
      simp [get_outstanding_dues, is_admin_is_False_criterion, hsb, sortWith]

lemma digitChar_toNat (d : Nat) (h : d < 10) : (Char.ofNat (48 + d)).toNat = 48 + d := by
  interval_cases d <;> decide

lemma digitChar_isDigit (d : Nat) (h : d < 10) :
    isDigitChar (Char.ofNat (48 + d)) = true := by
  interval_cases d <;> decide

lemma isDigitChar_ne_dash {c : Char} (h : isDigitChar c = true) : c ≠ '-' := by
  intro he; rw [he] at h; exact absurd h (by decide)

lemma natDigitsGo_div_lt {f n : Nat} (h : n < f + 1) (h10 : ¬ n < 10) :
    n / 10 < f := by
  have := Nat.div_lt_self (show 0 < n by omega) (show 1 < 10 by omega)
  omega

lemma natDigitsGo_ne_nil : ∀ (f n : Nat), n < f → natDigitsGo n f ≠ [] := by
  intro f
  induction f with
  | zero => intro n h; omega
  | succ f ih =>
    intro n _
    show (if n < 10 then _ else _) ≠ []
    by_cases h10 : n < 10
    · rw [if_pos h10]; simp
    · rw [if_neg h10]; simp

lemma natDigitsGo_digits : ∀ (f n : Nat), n < f →
    ∀ c ∈ natDigitsGo n f, isDigitChar c = true := by
  intro f
  induction f with
  | zero => intro n h; omega
  | succ f ih =>
    intro n hn c hc
    rw [show natDigitsGo n (f + 1)
        = if n < 10 then [Char.ofNat (48 + n)]
          else natDigitsGo (n / 10) f ++ [Char.ofNat (48 + n % 10)] from rfl] at hc
    by_cases h10 : n < 10
    · rw [if_pos h10] at hc
      rcases List.mem_singleton.mp hc with rfl
      exact digitChar_isDigit n h10
    · rw [if_neg h10] at hc
      rcases List.mem_append.mp hc with hc | hc
      · exact ih (n / 10) (natDigitsGo_div_lt hn h10) c hc
      · rcases List.mem_singleton.mp hc with rfl
        exact digitChar_isDigit (n % 10) (Nat.mod_lt n (by omega))

lemma natDigitsGo_foldl : ∀ (f n : Nat), n < f →
    (natDigitsGo n f).foldl (fun a c => a * 10 + (c.toNat - 48)) 0 = n := by
  intro f
  induction f with
  | zero => intro n h; omega
  | succ f ih =>
    intro n hn
    rw [show natDigitsGo n (f + 1)
        = if n < 10 then [Char.ofNat (48 + n)]
          else natDigitsGo (n / 10) f ++ [Char.ofNat (48 + n % 10)] from rfl]
    by_cases h10 : n < 10
    · rw [if_pos h10]
      simp [digitChar_toNat n h10]
    · rw [if_neg h10, List.foldl_append, ih (n / 10) (natDigitsGo_div_lt hn h10)]
      simp only [List.foldl_cons, List.foldl_nil,
        digitChar_toNat (n % 10) (Nat.mod_lt n (by omega))]
      omega

lemma natDigits_ne_nil (n : Nat) : natDigits n ≠ [] :=
  natDigitsGo_ne_nil (n + 1) n (by omega)

lemma natDigits_digits (n : Nat) : ∀ c ∈ natDigits n, isDigitChar c = true :=
  natDigitsGo_digits (n + 1) n (by omega)

lemma natDigits_foldl (n : Nat) :
    (natDigits n).foldl (fun a c => a * 10 + (c.toNat - 48)) 0 = n :=
  natDigitsGo_foldl (n + 1) n (by omega)

lemma natDigits_inj {y z : Nat} (h : natDigits y = natDigits z) : y = z := by
  have hy := natDigits_foldl y
  rw [h, natDigits_foldl] at hy
  omega

lemma pad3_all_digits (n : Nat) : ∀ c ∈ pad3 n, isDigitChar c = true := by
  intro c hc
  unfold pad3 at hc
  have h0 : isDigitChar '0' = true := by decide
  by_cases h1 : n < 10
  · rw [if_pos h1] at hc
    rcases (by simpa using hc : c = '0' ∨ c = '0' ∨ c ∈ natDigits n)
      with rfl | rfl | hm
    · exact h0
    · exact h0
    · exact natDigits_digits n c hm
  · rw [if_neg h1] at hc
    by_cases h2 : n < 100
    · rw [if_pos h2] at hc
      rcases (by simpa using hc : c = '0' ∨ c ∈ natDigits n) with rfl | hm
      · exact h0
      · exact natDigits_digits n c hm
    · rw [if_neg h2] at hc
      exact natDigits_digits n c hc

lemma pad3_ne_nil (n : Nat) : pad3 n ≠ [] := by
  unfold pad3
  by_cases h1 : n < 10
  · rw [if_pos h1]; simp
  · rw [if_neg h1]
    by_cases h2 : n < 100
    · rw [if_pos h2]; simp
    · rw [if_neg h2]; exact natDigits_ne_nil n

lemma pad3_foldl (n : Nat) :
    (pad3 n).foldl (fun a c => a * 10 + (c.toNat - 48)) 0 = n := by
  unfold pad3
  have hz : ('0'.toNat - 48) = 0 := by decide
  by_cases h1 : n < 10
  · rw [if_pos h1]
    simp only [List.foldl_cons, hz]
    simpa using natDigits_foldl n
  · rw [if_neg h1]
    by_cases h2 : n < 100
    · rw [if_pos h2]
      simp only [List.foldl_cons, hz]
      simpa using natDigits_foldl n
    · rw [if_neg h2]; exact natDigits_foldl n

lemma parseNatChars_pad3 (n : Nat) : parseNatChars (pad3 n) = some n := by
  unfold parseNatChars
  rw [if_pos ⟨pad3_ne_nil n, List.all_eq_true.mpr (pad3_all_digits n)⟩,
    pad3_foldl]

lemma pad3_no_dash (n : Nat) : ∀ c ∈ pad3 n, c ≠ '-' :=
  fun c hc => isDigitChar_ne_dash (pad3_all_digits n c hc)

lemma natDigits_no_dash (n : Nat) : ∀ c ∈ natDigits n, c ≠ '-' :=
  fun c hc => isDigitChar_ne_dash (natDigits_digits n c hc)

lemma foldl_dashfree (s : List Char) (h : ∀ c ∈ s, c ≠ '-') :
    ∀ acc, s.foldl (fun acc c => if c = '-' then [] else acc ++ [c]) acc
      = acc ++ s := by
  induction s with
  | nil => intro acc; simp
  | cons c s ih =>
    intro acc
    rw [List.foldl_cons, if_neg (h c (by simp))]
    rw [ih (fun d hd => h d (by simp [hd])) (acc ++ [c])]
    simp

lemma afterLastDash_append (a b : List Char) (hb : ∀ c ∈ b, c ≠ '-') :
    afterLastDash (a ++ '-' :: b) = b := by
  unfold afterLastDash
  rw [List.foldl_append, List.foldl_cons, if_pos rfl, foldl_dashfree b hb []]
  simp

lemma afterLastDash_mkReportId (y n : Nat) :
    afterLastDash (mkReportId y n) = pad3 n := by
  have hsplit : mkReportId y n
      = (['R', 'P', 'T', '-'] ++ natDigits y) ++ '-' :: pad3 n := by
    simp [mkReportId, List.append_assoc]
  rw [hsplit, afterLastDash_append _ _ (pad3_no_dash n)]

lemma dash_sep_inj {x w : List Char} :
    ∀ {u v : List Char}, (∀ c ∈ u, c ≠ '-') → (∀ c ∈ v, c ≠ '-') →
    u ++ '-' :: x = v ++ '-' :: w → u = v ∧ x = w := by
  intro u
  induction u with
  | nil =>
    intro v _ hv h
    cases v with
    | nil => simpa using h
    | cons d v' =>
      exfalso
      rw [List.nil_append] at h
      have : '-' = d := by
        have := congrArg (fun l => l.headI) h
        simpa using this
      exact hv d (by simp) this.symm
  | cons c u' ih =>
    intro v hu hv h
    cases v with
    | nil =>
      exfalso
      rw [List.nil_append] at h
      have : c = '-' := by
        have := congrArg (fun l => l.headI) h
        simpa using this
      exact hu c (by simp) this
    | cons d v' =>
      have hcd : c = d ∧ u' ++ '-' :: x = v' ++ '-' :: w := by
        simpa using h
      rcases ih (fun e he => hu e (by simp [he]))
        (fun e he => hv e (by simp [he])) hcd.2 with ⟨h1, h2⟩
      exact ⟨by rw [hcd.1, h1], h2⟩

lemma prefix_iff_year (year y n : Nat) :
    (reportIdStem year).isPrefixOf (mkReportId y n) = true ↔ y = year := by
  rw [List.isPrefixOf_iff_prefix]
  constructor
  · rintro ⟨t, ht⟩
    have ht' : natDigits year ++ '-' :: t = natDigits y ++ '-' :: pad3 n := by
      have := ht
      simp only [reportIdStem, mkReportId, List.append_assoc,
        List.cons_append, List.nil_append, List.singleton_append] at this ⊢
      simpa using this
    exact (natDigits_inj
      (dash_sep_inj (natDigits_no_dash year) (natDigits_no_dash y) ht').1).symm
  · rintro rfl
    exact ⟨pad3 n, by simp [reportIdStem, mkReportId, List.append_assoc]⟩

lemma mem_existing_seq {st : DbState} {year : Nat}
    (hwf : ∀ r ∈ st.reports, ∃ y n, r.id = mkReportId y n) (m : Nat) :
    m ∈ existing_seq_numbers st year
      ↔ mkReportId year m ∈ st.reports.map (fun r => r.id) := by
  constructor
  · intro hm
    rcases List.mem_filterMap.mp hm with ⟨r, hr, hparse⟩
    rcases List.mem_filter.mp hr with ⟨hrmem, hpref⟩
    rcases hwf r hrmem with ⟨y, n, hid⟩
    rw [hid] at hpref hparse
    have hy : y = year := (prefix_iff_year year y n).mp hpref
    rw [afterLastDash_mkReportId, parseNatChars_pad3] at hparse
    cases hparse
    exact List.mem_map.mpr ⟨r, hrmem, by rw [hid, hy]⟩
  · intro hm
    rcases List.mem_map.mp hm with ⟨r, hrmem, hid⟩
    apply List.mem_filterMap.mpr
    refine ⟨r, List.mem_filter.mpr ⟨hrmem, ?_⟩, ?_⟩
    · show (reportIdStem year).isPrefixOf r.id = true
      rw [hid]
      exact (prefix_iff_year year year m).mpr rfl
    · show parseNatChars (afterLastDash r.id) = some m
      rw [hid, afterLastDash_mkReportId, parseNatChars_pad3]

lemma le_foldl_max : ∀ (l : List Nat) (a : Nat),
    a ≤ l.foldl max a ∧ ∀ m ∈ l, m ≤ l.foldl max a := by
  intro l
  induction l with
  | nil => intro a; exact ⟨le_refl a, by simp⟩
  | cons b l ih =>
    intro a
    refine ⟨le_trans (le_max_left a b) (ih (max a b)).1, ?_⟩
    intro m hm
    rcases List.mem_cons.mp hm with rfl | hm
    · exact le_trans (le_max_right a m) (ih (max a m)).1
    · exact (ih (max a b)).2 m hm

lemma foldl_max_mem : ∀ (l : List Nat) (a : Nat),
    l.foldl max a = a ∨ l.foldl max a ∈ l := by
  intro l
  induction l with
  | nil => intro a; exact Or.inl rfl
  | cons b l ih =>
    intro a
    rcases ih (max a b) with h | h
    · rcases max_choice a b with hab | hab
      · exact Or.inl (by rw [List.foldl_cons, h, hab])
      · exact Or.inr (by rw [List.foldl_cons, h, hab]; exact List.mem_cons_self b l)
    · exact Or.inr (List.mem_cons_of_mem b h)

/-- Claim C8: when every stored report id has the generated shape, the id
assigned by generate_report is RPT-(year)-(seq) where seq is strictly
greater than every sequence number already stored for that year and either
equals 1 (no ids for the year) or is exactly one more than a stored one --
that is, max existing + 1, or 001 when none exist; the stored row expires
thirty days after generation.  Downloading an unknown id fails NotFound
and downloading a stored report whose expiry is in the past fails Expired
instead of returning the payload. -/
theorem claim_C8 (st : DbState) (year : Nat) (now : Rat) (rid : List Char)
    (hwf : ∀ r ∈ st.reports, ∃ y n, r.id = mkReportId y n) :
    ((generate_report st year now).2 = mkReportId year (report_count st year)
      ∧ (∀ m, mkReportId year m ∈ st.reports.map (fun r => r.id) →
          m < report_count st year)
      ∧ (report_count st year = 1
          ∨ mkReportId year (report_count st year - 1)
              ∈ st.reports.map (fun r => r.id))
      ∧ (generate_report st year now).1.reports
          = st.reports ++ [{ id := mkReportId year (report_count st year),
                             generated_at := now, expires_at := now + 30 }])
    ∧ (st.reports.find? (fun r => r.id == rid) = none →
        download_report st rid now = .error .notFound)
    ∧ (∀ rep, st.reports.find? (fun r => r.id == rid) = some rep →
        rep.expires_at < now → download_report st rid now = .error .expired) := by
  refine ⟨⟨rfl, ?_, ?_, rfl⟩, ?_, ?_⟩
  · intro m hm
    have hmem : m ∈ existing_seq_numbers st year :=
      (mem_existing_seq hwf m).mpr hm
    rcases hL : existing_seq_numbers st year with _ | ⟨a, l⟩
    · rw [hL] at hmem; simp at hmem
    · rw [hL] at hmem
      have := (le_foldl_max l a).2
      have hbase := (le_foldl_max l a).1
      have hcount : report_count st year = l.foldl max a + 1 := by
        unfold report_count; rw [hL]
      rw [hcount]
      rcases List.mem_cons.mp hmem with rfl | hmem
      · omega
      · have := this m hmem; omega
  · rcases hL : existing_seq_numbers st year with _ | ⟨a, l⟩
    · left; unfold report_count; rw [hL]
    · right
      have hcount : report_count st year = l.foldl max a + 1 := by
        unfold report_count; rw [hL]
      have hmem : l.foldl max a ∈ existing_seq_numbers st year := by
        rw [hL]
        rcases foldl_max_mem l a with h | h
        · rw [h]; exact List.mem_cons_self a l
        · exact List.mem_cons_of_mem a h
      have := (mem_existing_seq hwf (l.foldl max a)).mp hmem
      rw [hcount]
      simpa using this
  · intro h
    simp only [download_report, h]
  · intro rep hrep hexp
    simp only [download_report, hrep, if_pos hexp]

/-- Stored report RPT-2025-001, generated day 0, expiring day 30. -/
def witRep8a : ReportR :=
  { id := mkReportId 2025 1, generated_at := 0, expires_at := 30 }

/-- Stored report RPT-2025-005, generated day 10, expiring day 40. -/
def witRep8b : ReportR :=
  { id := mkReportId 2025 5, generated_at := 10, expires_at := 40 }

/-- Claim C8 witness store: two stored reports for the year 2025 with
sequence numbers 1 and 5. -/
def witState8 : DbState :=
  { users := [], courses := [], enrollments := [], payments := [],
    penalties := [], bank_txns := [], reports := [witRep8a, witRep8b],
    next_payment_id := 1 }

/-- Witness for claim C8: on the concrete store the next sequence is 6
(one more than the stored maximum 5), an unknown id fails NotFound, and
the report stored with expiry day 30 fails Expired at day 50. -/
theorem claim_C8_witness :
    report_count witState8 2025 = 6
    ∧ (generate_report witState8 2025 50).2 = mkReportId 2025 6
    ∧ download_report witState8 (mkReportId 2024 1) 50 = .error .notFound
    ∧ download_report witState8 (mkReportId 2025 1) 50 = .error .expired := by
  have hwf : ∀ r ∈ witState8.reports, ∃ y n, r.id = mkReportId y n := by
    intro r hr
    rcases (by simpa [witState8] using hr : r = witRep8a ∨ r = witRep8b)
      with rfl | rfl
    · exact ⟨2025, 1, rfl⟩
    · exact ⟨2025, 5, rfl⟩
  have hcount : report_count witState8 2025 = 6 := by decide
  refine ⟨hcount, ?_, ?_, ?_⟩
  · rw [(claim_C8 witState8 2025 50 [] hwf).1.1, hcount]
  · exact (claim_C8 witState8 2025 50 (mkReportId 2024 1) hwf).2.1 (by decide)
  · exact (claim_C8 witState8 2025 50 (mkReportId 2025 1) hwf).2.2 witRep8a
      (by rfl) (by norm_num [witRep8a])

lemma findUser_setDues_other (st : DbState) (sid : Nat) (b : Rat) (tid : Nat) :
    (setDues st.users sid b).find? (fun u => u.id == tid)
      = (st.users.find? (fun u => u.id == tid)).map
          (fun u => if u.id == sid then { u with dues_balance := b } else u) := by
  apply find?_map_of_pred_eq
  intro v
  rcases hv : v.id == sid with _ | _
  · rw [if_neg (by simp [hv])]
  · rw [if_pos (by simp [hv])]

/-- Claim C9: a bulk-penalty call over [x, y, z] where x exists with
positive dues, y does not exist and z exists with non-positive dues,
succeeds as a whole and reports an itemized details list: x gets a Penalty
row and a balance increased by the amount, y is reported failed, z is
reported skipped with its balance unchanged. -/
theorem claim_C9 (st : DbState) (admin_id x y z : Nat) (ux uz : UserR)
    (amount : Rat) (ptype : String)
    (hx : findUser st x = some ux) (hxa : ux.is_admin = false)
    (hxd : 0 < ux.dues_balance)
    (hy : findUser st y = none)
    (hz : findUser st z = some uz) (hza : uz.is_admin = false)
    (hzd : uz.dues_balance ≤ 0)
    (hamt : 0 < amount) :
    ∃ res, bulk_penalty st admin_id [x, y, z] amount ptype = .ok res
      ∧ res.details
          = [.applied x amount (ux.dues_balance + amount),
             .failed y "Student not found",
             .skipped z "No outstanding dues"]
      ∧ findUser res.db x
          = some { ux with dues_balance := ux.dues_balance + amount }
      ∧ findUser res.db z = some uz
      ∧ res.db.penalties
          = st.penalties
            ++ [{ student_id := x, amount := amount, penalty_type := ptype,
                  applied_by := admin_id }]
      ∧ res.applied_count = 1 ∧ res.total_penalties = amount := by
  have hxz : x ≠ z := by
    intro he
    rw [he, hz] at hx
    cases hx
    exact absurd hxd (not_lt.mpr hzd)
  have hzid : uz.id = z := findUser_id hz
  have hx0 : ¬ ux.dues_balance ≤ 0 := not_le.mpr hxd
  have hne : ¬ ([x, y, z] : List Nat) = [] := by simp
  have hamt0 : ¬ amount ≤ 0 := not_le.mpr hamt
  have hdb1y : findUser
      { st with
        users := setDues st.users x (ux.dues_balance + amount),
        penalties := st.penalties
          ++ [{ student_id := x, amount := amount, penalty_type := ptype,
                applied_by := admin_id }] } y = none := by
    show (setDues st.users x (ux.dues_balance + amount)).find?
        (fun u => u.id == y) = none
    rw [findUser_setDues_other]
    rw [show st.users.find? (fun u => u.id == y) = none from hy]
    rfl
  have hdb1z : findUser
      { st with
        users := setDues st.users x (ux.dues_balance + amount),
        penalties := st.penalties
          ++ [{ student_id := x, amount := amount, penalty_type := ptype,
                applied_by := admin_id }] } z = some uz := by
    show (setDues st.users x (ux.dues_balance + amount)).find?
        (fun u => u.id == z) = some uz
    rw [findUser_setDues_other]
    rw [show st.users.find? (fun u => u.id == z) = some uz from hz]
    show some (if uz.id == x then { uz with
        dues_balance := ux.dues_balance + amount } else uz) = some uz
    have hzx : (uz.id == x) = false := by
      rw [hzid]; simpa using Ne.symm hxz
    rw [if_neg (by simp [hzx])]
  have hdb1x : findUser
      { st with
        users := setDues st.users x (ux.dues_balance + amount),
        penalties := st.penalties
          ++ [{ student_id := x, amount := amount, penalty_type := ptype,
                applied_by := admin_id }] } x
      = some { ux with dues_balance := ux.dues_balance + amount } := by
    show (setDues st.users x (ux.dues_balance + amount)).find?
        (fun u => u.id == x) = _
    exact findUser_after_setDues st x (ux.dues_balance + amount) hx
  refine ⟨{ db := { st with
              users := setDues st.users x (ux.dues_balance + amount),
              penalties := st.penalties
                ++ [{ student_id := x, amount := amount,
                      penalty_type := ptype, applied_by := admin_id }] },
            details := [.applied x amount (ux.dues_balance + amount),
                        .failed y "Student not found",
                        .skipped z "No outstanding dues"],
            applied_count := 1,
            total_penalties := amount },
    ?_, rfl, hdb1x, hdb1z, rfl, rfl, rfl⟩
  rw [bulk_penalty, if_neg hne, if_neg hamt0]
  simp only [List.foldl_cons, List.foldl_nil, bulk_penalty_step, hx, hxa,
    hx0, hdb1y, hdb1z, hza, Bool.false_eq_true, if_false, if_pos hzd,
    zero_add, List.nil_append, List.singleton_append]
  rfl

/-- Student X of the claim C9 witness: id 1, owing 500. -/
def witUser9x : UserR := { id := 1, username := "xena", is_admin := false, dues_balance := 500 }

/-- Student Z of the claim C9 witness: id 3, owing nothing. -/
def witUser9z : UserR := { id := 3, username := "zoe", is_admin := false, dues_balance := 0 }

/-- Claim C9 witness store: students 1 and 3 exist, id 2 does not. -/
def witState9 : DbState :=
  { users := [witUser9x, witUser9z], courses := [], enrollments := [],
    payments := [], penalties := [], bank_txns := [], reports := [],
    next_payment_id := 1 }

/-- Witness for claim C9: bulk penalty of 50 over [1, 2, 3] applies to
student 1, fails on the missing id 2 and skips the zero-dues student 3. -/
theorem claim_C9_witness :
    ∃ res, bulk_penalty witState9 7 [1, 2, 3] 50 "LATE_FEE" = .ok res
      ∧ res.details
          = [.applied 1 50 (witUser9x.dues_balance + 50),
             .failed 2 "Student not found",
             .skipped 3 "No outstanding dues"]
      ∧ findUser res.db 1
          = some { witUser9x with
              dues_balance := witUser9x.dues_balance + 50 }
      ∧ findUser res.db 3 = some witUser9z
      ∧ res.db.penalties
          = witState9.penalties
            ++ [{ student_id := 1, amount := 50, penalty_type := "LATE_FEE",
                  applied_by := 7 }]
      ∧ res.applied_count = 1 ∧ res.total_penalties = 50 :=
  claim_C9 witState9 7 1 2 3 witUser9x witUser9z 50 "LATE_FEE" rfl rfl
    (by norm_num [witUser9x]) rfl rfl rfl (by norm_num [witUser9z])
    (by norm_num)

/-- Equality of handler results is decidable. -/
instance {e a : Type} [DecidableEq e] [DecidableEq a] :
    DecidableEq (Except e a) := fun x y =>
  match x, y with
  | .ok v, .ok w =>
    if h : v = w then isTrue (by rw [h])
    else isFalse (by intro hc; cases hc; exact h rfl)
  | .error v, .error w =>
    if h : v = w then isTrue (by rw [h])
    else isFalse (by intro hc; cases hc; exact h rfl)
  | .ok _, .error _ => isFalse (by intro hc; cases hc)
  | .error _, .ok _ => isFalse (by intro hc; cases hc)

/-- Claim C10 counterexample store: one non-admin student owing 500 (not
an exact match for a zero amount) and one stored bank transaction with
amount 0. -/
def cexState10 : DbState :=
  { users := [{ id := 1, username := "pat", is_admin := false, dues_balance := 500 }],
    courses := [], enrollments := [], payments := [], penalties := [],
    bank_txns := [{ id := 1, bank_ref := "Z0", amount := 0,
                    transaction_date := 0, status := "Unmatched",
                    matched_payment_id := none, matched_student_id := none,
                    matched_by := none, matched_at := none }],
    reports := [], next_payment_id := 1 }

/-- Claim C10 is false as stated: the stored transaction has amount 0 and
a non-admin student with positive dues (not an exact match) exists, yet
the suggestions call returns an ordinary (empty) suggestion list instead
of raising a division-by-zero error, because the student query's
criterion User.is_admin is False is the Python constant False and the
scan is over no rows. -/
theorem claim_C10_counterexample :
    ((cexState10.bank_txns.find? (fun t => t.id == 1)).map (fun t => t.amount)
        = some 0)
    ∧ (∃ u ∈ cexState10.users, u.is_admin = false ∧ 0 < u.dues_balance
        ∧ ¬ |u.dues_balance - 0| < 1 / 100)
    ∧ get_matching_suggestions cexState10 1 = .ok [] :=
  of_decide_eq_true (by with_unfolding_all rfl)

/-- Claim C10 (amended): the within-ten-percent test of the suggestion
loop divides by the transaction amount and would raise ZeroDivisionError
for a zero-amount transaction, but the loop runs over the students
returned by the query whose criterion User.is_admin is False is the
constant False, so it scans no rows and the division is unreachable: for
every store and transaction id, including zero-amount transactions, the
operation never fails with the division error. -/
theorem claim_C10 (st : DbState) (txn_id : Nat) :
    get_matching_suggestions st txn_id ≠ .error .zeroDiv := by
  unfold get_matching_suggestions
  rcases hT : st.bank_txns.find? (fun t => t.id == txn_id) with _ | txn
  · simp [hT]
  · have h0 : st.users.filter
        (fun u => decide (0 < u.dues_balance) && is_admin_is_False_criterion u)
          = [] := by
      rw [List.filter_eq_nil_iff]
      intro a _
      simp [is_admin_is_False_criterion]
    simp [hT, h0]
    intro hc
    exact Except.noConfusion hc

end FASE
